import Mathlib

/-!
Verification development for a CouchDB MCP server (`couchdb_mcp_server.py`).

The Python source is shallowly embedded: each tool handler becomes a function
in a state-and-exception monad `M`; the external CouchDB server (databases,
documents with MVCC revisions, the Mango `_find` endpoint) is modelled as an
explicit state, since the repository treats it as an opaque HTTP service.

Modelling conventions (each noted again at the point of use):
* Python dicts become association lists (`Dict`); insertion of a fresh key
  appends at the end and updating an existing key keeps its position, as in
  CPython.
* Python exceptions become the `PyExc` sum; `str(e)` becomes `excMsg`
  (repr-style quotes around messages are omitted, as are the single quotes
  that the Python f-strings place around database/document names - no stated
  property depends on them).
* `json.dumps(..., indent=2)` becomes `Json.dumps`; the exact whitespace of
  the rendering is abbreviated, every stated property depends only on the
  rendered object, never on the concrete layout of the string.
* Argument coercion from the untyped JSON payload happens at the dispatcher
  boundary (`argStr`, ...); in Python a badly typed argument would instead
  raise inside the handler.  Both surface as contained textual errors.
* `self._get_server()[database]` is modelled as raising `KeyError` for a
  missing database, which is the contract the handlers' `except KeyError`
  clauses are written against.
-/

/-- JSON values, the payloads exchanged with CouchDB. -/
inductive Json where
  | null
  | bool (b : Bool)
  | num (n : Int)
  | str (s : String)
  | arr (xs : List Json)
  | obj (fields : List (String × Json))

/-- A Python dict with JSON values: an association list; keys are unique and
keep insertion order. -/
abbrev Dict := List (String × Json)

/-- First value bound to `k` (Python `d.get(k)` / `d[k]` lookup). -/
def assocGet {α : Type} (l : List (String × α)) (k : String) : Option α :=
  match l with
  | [] => none
  | (k0, v) :: rest => if k0 = k then some v else assocGet rest k

/-- Python `d[k] = v`: update in place (keeping the position of an existing
key), append if the key is fresh. -/
def assocSet {α : Type} (l : List (String × α)) (k : String) (v : α) :
    List (String × α) :=
  match l with
  | [] => [(k, v)]
  | (k0, v0) :: rest =>
    if k0 = k then (k, v) :: rest else (k0, v0) :: assocSet rest k v

/-- Remove every binding of `k`. -/
def assocRemove {α : Type} (l : List (String × α)) (k : String) :
    List (String × α) :=
  l.filter (fun p => p.1 ≠ k)

/-- The Python dict display `\x7b"_id": x, **document\x7d`: the `_id` key sits in
first position, but a `_id` key of `document` overrides the value `x`; the
remaining keys of `document` follow in their own order. -/
def pyMergeId (x : String) (d : Dict) : Dict :=
  ("_id", match assocGet d "_id" with
          | some v => v
          | none => Json.str x) :: d.filter (fun p => p.1 ≠ "_id")

/-- Python truthiness of a JSON value (used for `if warning:`). -/
def jsonTruthy : Json → Bool
  | Json.null => false
  | Json.bool b => b
  | Json.num n => n ≠ 0
  | Json.str s => s ≠ ""
  | Json.arr xs => ¬ xs.isEmpty
  | Json.obj fs => ¬ fs.isEmpty

/-- Scalar equality of JSON values, the fragment of CouchDB Mango selector
matching that the stated properties exercise; a non-scalar selector value is
modelled as matching nothing. -/
def jeqScalar : Json → Json → Bool
  | Json.null, Json.null => true
  | Json.bool a, Json.bool b => a == b
  | Json.num a, Json.num b => a == b
  | Json.str a, Json.str b => a == b
  | _, _ => false

mutual

/-- `json.dumps`: the textual rendering of a JSON value (indentation
abbreviated; no stated property inspects the layout of the string). -/
def Json.dumps : Json → String
  | Json.null => "null"
  | Json.bool b => cond b "true" "false"
  | Json.num n => toString n
  | Json.str s => "\"" ++ s ++ "\""
  | Json.arr xs => "[" ++ Json.dumpsArr xs ++ "]"
  | Json.obj fs => "\x7b" ++ Json.dumpsObj fs ++ "\x7d"

/-- Rendering of an array body. -/
def Json.dumpsArr : List Json → String
  | [] => ""
  | [x] => Json.dumps x
  | x :: xs => Json.dumps x ++ ", " ++ Json.dumpsArr xs

/-- Rendering of an object body. -/
def Json.dumpsObj : List (String × Json) → String
  | [] => ""
  | [(k, v)] => "\"" ++ k ++ "\": " ++ Json.dumps v
  | (k, v) :: fs => "\"" ++ k ++ "\": " ++ Json.dumps v ++ ", " ++ Json.dumpsObj fs

end

/-- One `TextContent(type="text", text=...)` block returned to the caller. -/
structure TextContent where
  type : String
  text : String

/-- Shorthand for a text block. -/
def mkText (s : String) : TextContent := { type := "text", text := s }

/-- The Python exceptions the program can see: the `couchdb.http` error
classes, the builtin lookup/type errors, and the `ConnectionError` raised by
`connect`. -/
inductive PyExc where
  | keyError (k : String)
  | typeError (k : String)
  | valueError (m : String)
  | connectionError (m : String)
  | resourceNotFound (m : String)
  | resourceConflict (m : String)
  | preconditionFailed (m : String)
  | attributeError (m : String)
  | serverError (m : String)

/-- `str(e)` (Python surrounds a `KeyError` key with repr quotes; omitted). -/
def excMsg : PyExc → String
  | PyExc.keyError k => k
  | PyExc.typeError k => "unsupported argument type for " ++ k
  | PyExc.valueError m => m
  | PyExc.connectionError m => m
  | PyExc.resourceNotFound m => m
  | PyExc.resourceConflict m => m
  | PyExc.preconditionFailed m => m
  | PyExc.attributeError m => m
  | PyExc.serverError m => m

/-- `except KeyError`. -/
def isKeyError : PyExc → Bool
  | PyExc.keyError _ => true
  | _ => false

/-- `except couchdb.http.ResourceNotFound`. -/
def isResourceNotFound : PyExc → Bool
  | PyExc.resourceNotFound _ => true
  | _ => false

/-- `except couchdb.http.ResourceConflict`. -/
def isResourceConflict : PyExc → Bool
  | PyExc.resourceConflict _ => true
  | _ => false

/-- `except couchdb.http.PreconditionFailed`. -/
def isPreconditionFailed : PyExc → Bool
  | PyExc.preconditionFailed _ => true
  | _ => false

/-- `except AttributeError`. -/
def isAttributeError : PyExc → Bool
  | PyExc.attributeError _ => true
  | _ => false

/-- `except Exception`. -/
def anyExc : PyExc → Bool := fun _ => true

/-- A stored CouchDB document: current revision token plus the stored JSON
body (which itself carries `_id` and `_rev`). -/
structure StoredDoc where
  rev : String
  body : Dict

/-- One database on the CouchDB server.  `findFault` models a server-side
failure of the `_find` endpoint (e.g. a rejected selector); `findWarning`
models the warning string the server attaches to `_find` responses (e.g. a
missing-index warning); `indexes` the Mango indexes. -/
structure Db where
  docs : List (String × StoredDoc)
  findFault : Option String
  findWarning : Option String
  indexes : List Json

/-- A freshly created database. -/
def emptyDb : Db := { docs := [], findFault := none, findWarning := none, indexes := [] }

/-- Outbound HTTP requests recorded by the model (only the `_find` posts,
which the stated properties inspect). -/
inductive Req where
  | findPost (db : String) (selector : Dict) (limit skip : Int)

/-- The CouchDB server's own state: databases, a counter feeding generated
document ids and revision tokens, and the trace of `_find` posts. -/
structure SrvSt where
  dbs : List (String × Db)
  uuidCtr : Nat
  trace : List Req

/-- Full state of a run: configured URL, whether the CouchDB server answers
(`reachable`), whether the driver exposes `Database.find`
(`findSupported`), the process-local connection handle `couch` (a token, or
`none` before the first connect) together with the count of connect attempts
`connCtr`, and the server state. -/
structure St where
  url : String
  reachable : Bool
  findSupported : Bool
  couch : Option Nat
  connCtr : Nat
  srv : SrvSt

/-- The program monad: state threading plus Python exception propagation.
State mutated before a raise is kept, as in Python. -/
def M (α : Type) : Type := St → Except (PyExc × St) (α × St)

/-- Monadic return. -/
def M.pure {α : Type} (a : α) : M α := fun st => Except.ok (a, st)

/-- Monadic bind. -/
def M.bind {α β : Type} (m : M α) (k : α → M β) : M β := fun st =>
  match m st with
  | Except.ok (a, st') => k a st'
  | Except.error e => Except.error e

/-- `raise e`. -/
def M.throw {α : Type} (e : PyExc) : M α := fun st => Except.error (e, st)

/-- A chain of `except` clauses: the first clause whose predicate matches the
exception handles it; otherwise the exception re-raises. -/
def runClauses {α : Type} :
    List ((PyExc → Bool) × (PyExc → M α)) → PyExc → St →
    Except (PyExc × St) (α × St)
  | [], e, st => Except.error (e, st)
  | (p, h) :: rest, e, st => if p e then h e st else runClauses rest e st

/-- `try body except ... except ...`. -/
def excepts {α : Type} (body : M α)
    (clauses : List ((PyExc → Bool) × (PyExc → M α))) : M α := fun st =>
  match body st with
  | Except.ok r => Except.ok r
  | Except.error (e, st') => runClauses clauses e st'

/-- `CouchDBServer.connect`: `self.couch = couchdb.Server(self.url)` assigns
the handle unconditionally (object construction cannot fail), then the
liveness probe `self.couch.version()` raises `ConnectionError` when the
server is unreachable - so a failed connect still leaves a handle assigned,
exactly as in the source. -/
def connect : M Bool := fun st =>
  let st1 : St := { st with couch := some st.connCtr, connCtr := st.connCtr + 1 }
  if st.reachable then Except.ok (true, st1)
  else Except.error
    (PyExc.connectionError ("Failed to connect to CouchDB at " ++ st.url ++ ": unreachable"), st1)

/-- `CouchDBServer._get_server`: return the existing handle, connecting only
when none exists yet. -/
def get_server : M Nat := fun st =>
  match st.couch with
  | some h => Except.ok (h, st)
  | none =>
    match connect st with
    | Except.ok (_, st') => Except.ok (st.connCtr, st')
    | Except.error e => Except.error e

/-- An HTTP operation against the CouchDB server: fails with a connection
error when the server is unreachable, otherwise acts on the server state
(never on the connection fields). -/
def srvOp {α : Type} (f : SrvSt → Except PyExc (α × SrvSt)) : M α := fun st =>
  if st.reachable then
    match f st.srv with
    | Except.ok (a, s2) => Except.ok (a, { st with srv := s2 })
    | Except.error e => Except.error (e, st)
  else Except.error (PyExc.connectionError "connection refused", st)

/-- Database lookup on the server state. -/
def lookupDb (s : SrvSt) (name : String) : Option Db := assocGet s.dbs name

/-- Document lookup inside a database. -/
def lookupDoc (dbv : Db) (docId : String) : Option StoredDoc := assocGet dbv.docs docId

/-- Detail string of a CouchDB revision conflict response. -/
def conflictDetail : String := "conflict - Document update conflict"

/-- Detail string of a CouchDB missing-resource response. -/
def notFoundDetail : String := "not_found - missing"

/-- Detail string of a CouchDB bad-request response. -/
def badRequestDetail : String := "bad_request - invalid field"

/-- Server-generated document id (UUID stream abbreviated to a counter). -/
def genId (n : Nat) : String := "gen-" ++ toString n

/-- Server-generated revision token. -/
def genRev (n : Nat) : String := "r-" ++ toString n

/-- Store a document under id `i` with MVCC checking: a new id accepts only a
body without `_rev`; an existing id requires the body's `_rev` to equal the
current revision; a non-string `_rev` is a bad request.  On success the
stored body is the input with `_id` and the fresh `_rev` injected. -/
def saveAt (dbv : Db) (d : Dict) (i : String) (n : Nat) :
    Except PyExc (String × String × Db) :=
  let body := assocSet (assocSet d "_id" (Json.str i)) "_rev" (Json.str (genRev n))
  match lookupDoc dbv i with
  | none =>
    match assocGet d "_rev" with
    | none =>
      Except.ok (i, genRev n,
        { dbv with docs := assocSet dbv.docs i { rev := genRev n, body := body } })
    | some _ => Except.error (PyExc.resourceConflict conflictDetail)
  | some sd =>
    match assocGet d "_rev" with
    | some (Json.str r0) =>
      if r0 = sd.rev then
        Except.ok (i, genRev n,
          { dbv with docs := assocSet dbv.docs i { rev := genRev n, body := body } })
      else Except.error (PyExc.resourceConflict conflictDetail)
    | some _ => Except.error (PyExc.serverError badRequestDetail)
    | none => Except.error (PyExc.resourceConflict conflictDetail)

/-- `db.save(doc)` as decided by the CouchDB server: the id is the body's
`_id` when present (a non-string `_id` is a bad request), otherwise a
server-generated one. -/
def savePlan (dbv : Db) (d : Dict) (n : Nat) :
    Except PyExc (String × String × Db) :=
  match assocGet d "_id" with
  | some (Json.str i) => saveAt dbv d i n
  | some _ => Except.error (PyExc.serverError badRequestDetail)
  | none => saveAt dbv d (genId n) n

/-- `db.save(doc)` over HTTP: resolves the database, runs the save, bumps the
generation counter. -/
def dbSave (database : String) (d : Dict) : M (String × String) :=
  srvOp (fun s =>
    match lookupDb s database with
    | none => Except.error (PyExc.resourceNotFound notFoundDetail)
    | some dbv =>
      match savePlan dbv d s.uuidCtr with
      | Except.ok (i, r, dbv2) =>
        Except.ok ((i, r),
          { s with dbs := assocSet s.dbs database dbv2, uuidCtr := s.uuidCtr + 1 })
      | Except.error e => Except.error e)

/-- `self._get_server()[database]`: resolve the database, raising `KeyError`
when it does not exist (the contract the handlers' `except KeyError` clauses
are written against). -/
def getDb (database : String) : M String :=
  M.bind get_server (fun _ =>
    srvOp (fun s =>
      match lookupDb s database with
      | some _ => Except.ok (database, s)
      | none => Except.error (PyExc.keyError database)))

/-- `db[doc_id]`: fetch a stored document body, `ResourceNotFound` when the
document is missing. -/
def dbGetDoc (database docId : String) : M Dict :=
  srvOp (fun s =>
    match lookupDb s database with
    | none => Except.error (PyExc.keyError database)
    | some dbv =>
      match lookupDoc dbv docId with
      | some sd => Except.ok (sd.body, s)
      | none => Except.error (PyExc.resourceNotFound notFoundDetail))

/-- `db.delete(\x7b"_id": doc_id, "_rev": rev\x7d)`: MVCC-checked delete. -/
def dbDeleteDoc (database docId rev : String) : M Unit :=
  srvOp (fun s =>
    match lookupDb s database with
    | none => Except.error (PyExc.keyError database)
    | some dbv =>
      match lookupDoc dbv docId with
      | none => Except.error (PyExc.resourceNotFound notFoundDetail)
      | some sd =>
        if rev = sd.rev then
          let dbv2 : Db := { dbv with docs := assocRemove dbv.docs docId }
          Except.ok ((), { s with dbs := assocSet s.dbs database dbv2 })
        else Except.error (PyExc.resourceConflict conflictDetail))

/-- `list(server)`: the database names. -/
def dbListNames : M (List String) :=
  srvOp (fun s => Except.ok (s.dbs.map Prod.fst, s))

/-- `server.create(name)`: `PreconditionFailed` when the database exists. -/
def dbCreate (name : String) : M Unit :=
  srvOp (fun s =>
    match lookupDb s name with
    | some _ => Except.error (PyExc.preconditionFailed "file_exists")
    | none => Except.ok ((), { s with dbs := s.dbs ++ [(name, emptyDb)] }))

/-- `server.delete(name)`: `ResourceNotFound` when the database is missing. -/
def dbDelete (name : String) : M Unit :=
  srvOp (fun s =>
    match lookupDb s name with
    | some _ => Except.ok ((), { s with dbs := assocRemove s.dbs name })
    | none => Except.error (PyExc.resourceNotFound notFoundDetail))

/-- Mango query execution on the server: equality selector over the stored
bodies, then `skip` and `limit` pagination. -/
def selMatch (sel : Dict) (d : Dict) : Bool :=
  sel.all (fun p =>
    match assocGet d p.1 with
    | some v => jeqScalar v p.2
    | none => false)

/-- Documents a `_find` request returns. -/
def mangoExec (dbv : Db) (sel : Dict) (limit skip : Int) : List Dict :=
  (((dbv.docs.map (fun p => p.2.body)).filter (selMatch sel)).drop skip.toNat).take limit.toNat

/-- The JSON body of the server's `_find` response: the matching docs plus,
when the server has one, the `warning` field (e.g. a missing-index warning).
Bookmark and execution statistics are omitted; nothing stated reads them. -/
def serverFindResp (dbv : Db) (sel : Dict) (limit skip : Int) : Dict :=
  let base : Dict := [("docs", Json.arr ((mangoExec dbv sel limit skip).map Json.obj))]
  match dbv.findWarning with
  | some w => base ++ [("warning", Json.str w)]
  | none => base

/-- HTTP response headers of a JSON response (no payload fields live here). -/
def stdHeaders : Dict := [("content-type", Json.str "application/json")]

/-- The `(status, headers, data)` triple `Resource.post_json` /
`Resource.get_json` return in the couchdb driver. -/
structure RespTriple where
  status : Int
  headers : Dict
  body : Dict

/-- `db.resource.post_json("_find", body=mango_query)`: posts the selector
with its pagination to the raw `_find` endpoint (recorded in the trace) and
yields the full response triple. -/
def rawFindPost (database : String) (sel : Dict) (limit skip : Int) : M RespTriple :=
  srvOp (fun s =>
    match lookupDb s database with
    | none => Except.error (PyExc.resourceNotFound notFoundDetail)
    | some dbv =>
      match dbv.findFault with
      | some m => Except.error (PyExc.serverError m)
      | none =>
        Except.ok ({ status := 200, headers := stdHeaders,
                     body := serverFindResp dbv sel limit skip },
                   { s with trace := s.trace ++ [Req.findPost database sel limit skip] }))

/-- `db.find(mango_query)` in the couchdb driver: raises `AttributeError`
when the driver does not expose `find`; otherwise posts to `_find` and
returns `data.get("docs", [])` - only the docs, discarding any warning the
response body carries. -/
def dbFind (database : String) (sel : Dict) (limit skip : Int) : M (List Json) := fun st =>
  if st.findSupported then
    (M.bind (rawFindPost database sel limit skip) (fun result =>
      M.pure (match assocGet result.body "docs" with
              | some (Json.arr l) => l
              | _ => []))) st
  else Except.error (PyExc.attributeError "Database object has no attribute find", st)

/-- `db.resource.post_json("_index", body=index_spec)`: registers the index
and yields the response triple. -/
def rawIndexPost (database : String) (spec : Dict) : M RespTriple :=
  srvOp (fun s =>
    match lookupDb s database with
    | none => Except.error (PyExc.resourceNotFound notFoundDetail)
    | some dbv =>
      let dbv2 : Db := { dbv with indexes := dbv.indexes ++ [Json.obj spec] }
      Except.ok ({ status := 200, headers := stdHeaders,
                   body := [("result", Json.str "created"),
                            ("id", Json.str "_design/auto"),
                            ("name", match assocGet spec "name" with
                                     | some v => v
                                     | none => Json.str "auto")] },
                 { s with dbs := assocSet s.dbs database dbv2 }))

/-- `db.resource.get_json("_index")`. -/
def rawIndexGet (database : String) : M RespTriple :=
  srvOp (fun s =>
    match lookupDb s database with
    | none => Except.error (PyExc.resourceNotFound notFoundDetail)
    | some dbv =>
      Except.ok ({ status := 200, headers := stdHeaders,
                   body := [("indexes", Json.arr dbv.indexes),
                            ("total_rows", Json.num (Int.ofNat dbv.indexes.length))] },
                 s))

/-- One row of an `_all_docs` view response (`row.id`, `row.key`,
`row.value`, `row.doc`).  Row order is modelled as storage order; no stated
property depends on CouchDB's id ordering. -/
structure Row where
  id : String
  key : Json
  value : Json
  doc : Dict

/-- Rows of `_all_docs` for a database. -/
def rowsOf (dbv : Db) : List Row :=
  dbv.docs.map (fun p =>
    { id := p.1, key := Json.str p.1,
      value := Json.obj [("rev", Json.str p.2.rev)], doc := p.2.body })

/-- `db.view("_all_docs", include_docs=..., limit=...)`. -/
def dbView (database : String) (limit : Option Int) : M (List Row) :=
  srvOp (fun s =>
    match lookupDb s database with
    | none => Except.error (PyExc.keyError database)
    | some dbv =>
      Except.ok ((match limit with
                  | some l => (rowsOf dbv).take l.toNat
                  | none => rowsOf dbv), s))

/-- The `\x7bid, rev, message\x7d` success payload of `_create_document`. -/
def createResp (i r : String) : Json :=
  Json.obj [("id", Json.str i), ("rev", Json.str r),
            ("message", Json.str "Document created successfully")]

/-- The `\x7bid, rev, message\x7d` success payload of `_update_document`. -/
def updateResp (i r : String) : Json :=
  Json.obj [("id", Json.str i), ("rev", Json.str r),
            ("message", Json.str "Document updated successfully")]

/-- The advisory note attached to a zero-result search. -/
def noteText : String :=
  "No documents matched the query. To verify documents exist, use couchdb_list_documents with include_docs=true"

/-- The conflict message of `_update_document`. -/
def updateConflictMsg : String :=
  "Document update conflict - document was modified, please get the latest revision"

/-- Python truthiness of the optional `doc_id` argument. -/
def truthyStr : Option String → Bool
  | some v => v ≠ ""
  | none => false

/-- The document actually passed to `db.save` by `_create_document`:
`\x7b"_id": doc_id, **document\x7d` when `doc_id` is truthy, else the document
itself. -/
def mergedDoc (docId : Option String) (d : Dict) : Dict :=
  if truthyStr docId then pyMergeId (docId.getD "") d else d

/-- `_list_databases` (no `try` in the source: failures propagate to the
dispatcher). -/
def list_databases : M (List TextContent) :=
  M.bind get_server (fun _ =>
    M.bind dbListNames (fun names =>
      M.pure [mkText (Json.dumps (Json.obj
        [("databases", Json.arr (names.map Json.str)),
         ("count", Json.num (Int.ofNat names.length))]))]))

/-- `_create_database`. -/
def create_database (name : String) : M (List TextContent) :=
  excepts
    (M.bind get_server (fun _ =>
      M.bind (dbCreate name) (fun _ =>
        M.pure [mkText ("Database " ++ name ++ " created successfully")])))
    [(isPreconditionFailed, fun _ =>
        M.pure [mkText ("Database " ++ name ++ " already exists")])]

/-- `_delete_database`. -/
def delete_database (name : String) : M (List TextContent) :=
  excepts
    (M.bind get_server (fun _ =>
      M.bind (dbDelete name) (fun _ =>
        M.pure [mkText ("Database " ++ name ++ " deleted successfully")])))
    [(isResourceNotFound, fun _ =>
        M.pure [mkText ("Database " ++ name ++ " not found")])]

/-- `_create_document`: inject `doc_id` as `_id` when truthy, save, report
id/rev; `KeyError` means the database is missing, any other failure is
reported generically. -/
def create_document (database : String) (document : Dict)
    (docId : Option String) : M (List TextContent) :=
  excepts
    (M.bind (getDb database) (fun _ =>
      M.bind (dbSave database (mergedDoc docId document)) (fun ir =>
        M.pure [mkText (Json.dumps (createResp ir.1 ir.2))])))
    [(isKeyError, fun _ =>
        M.pure [mkText ("Database " ++ database ++ " not found")]),
     (anyExc, fun e =>
        M.pure [mkText ("Error creating document: " ++ excMsg e)])]

/-- `_get_document`. -/
def get_document (database docId : String) : M (List TextContent) :=
  excepts
    (M.bind (getDb database) (fun _ =>
      M.bind (dbGetDoc database docId) (fun doc =>
        M.pure [mkText (Json.dumps (Json.obj doc))])))
    [(isKeyError, fun _ =>
        M.pure [mkText ("Database " ++ database ++ " or document " ++ docId ++ " not found")]),
     (isResourceNotFound, fun _ =>
        M.pure [mkText ("Document " ++ docId ++ " not found")])]

/-- `_update_document`'s `if "_id" not in document: document["_id"] = doc_id`
(a fresh key is appended at the end, as in CPython). -/
def injectId (document : Dict) (docId : String) : Dict :=
  if (assocGet document "_id").isSome then document
  else assocSet document "_id" (Json.str docId)

/-- `_update_document`: inject `_id` when absent, save (MVCC-checked by the
server), translate a revision conflict into the refetch guidance. -/
def update_document (database docId : String) (document : Dict) :
    M (List TextContent) :=
  excepts
    (M.bind (getDb database) (fun _ =>
      M.bind (dbSave database (injectId document docId)) (fun ir =>
        M.pure [mkText (Json.dumps (updateResp ir.1 ir.2))])))
    [(isKeyError, fun _ =>
        M.pure [mkText ("Database " ++ database ++ " not found")]),
     (isResourceConflict, fun _ =>
        M.pure [mkText updateConflictMsg]),
     (anyExc, fun e =>
        M.pure [mkText ("Error updating document: " ++ excMsg e)])]

/-- `_delete_document` (no catch-all: only the three listed exceptions are
translated, anything else propagates to the dispatcher). -/
def delete_document (database docId rev : String) : M (List TextContent) :=
  excepts
    (M.bind (getDb database) (fun _ =>
      M.bind (dbDeleteDoc database docId rev) (fun _ =>
        M.pure [mkText ("Document " ++ docId ++ " deleted successfully")])))
    [(isKeyError, fun _ =>
        M.pure [mkText ("Database " ++ database ++ " not found")]),
     (isResourceNotFound, fun _ =>
        M.pure [mkText ("Document " ++ docId ++ " not found")]),
     (isResourceConflict, fun _ =>
        M.pure [mkText "Document delete conflict - revision mismatch"])]

/-- `_search_documents_fallback`: re-post the same selector/limit/skip to the
raw `_find` endpoint; then read `result[1].get("docs", [])` and
`result[1].get("warning", None)` - component 1 of the
`(status, headers, data)` triple, i.e. the HTTP headers, exactly as the
source indexes it. -/
def search_documents_fallback (database : String) (query : Dict)
    (limit skip : Int) : M (List TextContent) :=
  excepts
    (M.bind (getDb database) (fun _ =>
      M.bind (rawFindPost database query limit skip) (fun result =>
        let docs : List Json :=
          match assocGet result.headers "docs" with
          | some (Json.arr l) => l
          | _ => []
        let warning : Option Json := assocGet result.headers "warning"
        let response : Dict :=
          [("docs", Json.arr docs), ("count", Json.num (Int.ofNat docs.length))]
        let response : Dict :=
          match warning with
          | some w => if jsonTruthy w then assocSet response "warning" w else response
          | none => response
        let response : Dict :=
          if docs.length = 0 then assocSet response "note" (Json.str noteText)
          else response
        M.pure [mkText (Json.dumps (Json.obj response))])))
    [(anyExc, fun e =>
        M.pure [mkText ("Error in fallback search: " ++ excMsg e)])]

/-- `_search_documents`: primary path through the driver `db.find` (which
yields only the docs of the response), falling back to the raw endpoint only
on `AttributeError`; any other failure is reported as an error text. -/
def search_documents (database : String) (query : Dict) (limit skip : Int) :
    M (List TextContent) :=
  excepts
    (M.bind (getDb database) (fun _ =>
      M.bind (dbFind database query limit skip) (fun docs =>
        let response : Dict :=
          [("docs", Json.arr docs), ("count", Json.num (Int.ofNat docs.length))]
        let response : Dict :=
          if docs.length = 0 then assocSet response "note" (Json.str noteText)
          else response
        M.pure [mkText (Json.dumps (Json.obj response))])))
    [(isKeyError, fun _ =>
        M.pure [mkText ("Database " ++ database ++ " not found")]),
     (isAttributeError, fun _ =>
        search_documents_fallback database query limit skip),
     (anyExc, fun e =>
        M.pure [mkText ("Error searching documents: " ++ excMsg e)])]

/-- `_list_documents`. -/
def list_documents (database : String) (limit : Option Int)
    (includeDocs : Bool) : M (List TextContent) :=
  excepts
    (M.bind (getDb database) (fun _ =>
      M.bind (dbView database limit) (fun rows =>
        let docs : List Json :=
          rows.map (fun row =>
            if includeDocs then Json.obj row.doc
            else Json.obj [("id", Json.str row.id), ("key", row.key),
                           ("value", row.value)])
        M.pure [mkText (Json.dumps (Json.obj
          [("documents", Json.arr docs),
           ("count", Json.num (Int.ofNat docs.length))]))])))
    [(isKeyError, fun _ =>
        M.pure [mkText ("Database " ++ database ++ " not found")]),
     (anyExc, fun e =>
        M.pure [mkText ("Error listing documents: " ++ excMsg e)])]

/-- `_create_index`: the response fields `result`/`id`/`name` are read from
`result[1]`, the headers component of the triple, and so render as `null`. -/
def create_index (database : String) (fields : List Json)
    (indexName : Option String) : M (List TextContent) :=
  excepts
    (M.bind (getDb database) (fun _ =>
      let indexSpec : Dict :=
        [("index", Json.obj [("fields", Json.arr fields)]), ("type", Json.str "json")]
      let indexSpec : Dict :=
        if truthyStr indexName then assocSet indexSpec "name" (Json.str (indexName.getD ""))
        else indexSpec
      M.bind (rawIndexPost database indexSpec) (fun result =>
        M.pure [mkText (Json.dumps (Json.obj
          [("result", (assocGet result.headers "result").getD Json.null),
           ("id", (assocGet result.headers "id").getD Json.null),
           ("name", (assocGet result.headers "name").getD Json.null),
           ("message", Json.str ("Index created successfully on fields: " ++
              Json.dumps (Json.arr fields)))]))])))
    [(isKeyError, fun _ =>
        M.pure [mkText ("Database " ++ database ++ " not found")]),
     (anyExc, fun e =>
        M.pure [mkText ("Error creating index: " ++ excMsg e)])]

/-- `_list_indexes`: `indexes` and `total_rows` are likewise read from the
headers component of the triple. -/
def list_indexes (database : String) : M (List TextContent) :=
  excepts
    (M.bind (getDb database) (fun _ =>
      M.bind (rawIndexGet database) (fun result =>
        let indexes : List Json :=
          match assocGet result.headers "indexes" with
          | some (Json.arr l) => l
          | _ => []
        M.pure [mkText (Json.dumps (Json.obj
          [("indexes", Json.arr indexes),
           ("count", Json.num (Int.ofNat indexes.length)),
           ("total_rows", (assocGet result.headers "total_rows").getD Json.null)]))])))
    [(isKeyError, fun _ =>
        M.pure [mkText ("Database " ++ database ++ " not found")]),
     (anyExc, fun e =>
        M.pure [mkText ("Error listing indexes: " ++ excMsg e)])]

/-- `arguments[k]` coerced to a string (a missing key raises `KeyError` at
the dispatcher, as in the source; a badly typed value is modelled as a
dispatcher-level type error, where Python would fail inside the handler -
both are contained the same way). -/
def argStr (args : Dict) (k : String) : M String := fun st =>
  match assocGet args k with
  | none => Except.error (PyExc.keyError k, st)
  | some (Json.str s) => Except.ok (s, st)
  | some _ => Except.error (PyExc.typeError k, st)

/-- `arguments[k]` coerced to an object. -/
def argObj (args : Dict) (k : String) : M Dict := fun st =>
  match assocGet args k with
  | none => Except.error (PyExc.keyError k, st)
  | some (Json.obj d) => Except.ok (d, st)
  | some _ => Except.error (PyExc.typeError k, st)

/-- `arguments[k]` coerced to an array. -/
def argArr (args : Dict) (k : String) : M (List Json) := fun st =>
  match assocGet args k with
  | none => Except.error (PyExc.keyError k, st)
  | some (Json.arr l) => Except.ok (l, st)
  | some _ => Except.error (PyExc.typeError k, st)

/-- `arguments.get(k)` as an optional string. -/
def argStrOpt (args : Dict) (k : String) : M (Option String) := fun st =>
  match assocGet args k with
  | none => Except.ok (none, st)
  | some Json.null => Except.ok (none, st)
  | some (Json.str s) => Except.ok (some s, st)
  | some _ => Except.error (PyExc.typeError k, st)

/-- `arguments.get(k, default)` as an integer. -/
def argIntD (args : Dict) (k : String) (d : Int) : M Int := fun st =>
  match assocGet args k with
  | none => Except.ok (d, st)
  | some (Json.num n) => Except.ok (n, st)
  | some _ => Except.error (PyExc.typeError k, st)

/-- `arguments.get(k)` as an optional integer. -/
def argIntOpt (args : Dict) (k : String) : M (Option Int) := fun st =>
  match assocGet args k with
  | none => Except.ok (none, st)
  | some Json.null => Except.ok (none, st)
  | some (Json.num n) => Except.ok (some n, st)
  | some _ => Except.error (PyExc.typeError k, st)

/-- `arguments.get(k, default)` as a boolean. -/
def argBoolD (args : Dict) (k : String) (d : Bool) : M Bool := fun st =>
  match assocGet args k with
  | none => Except.ok (d, st)
  | some (Json.bool b) => Except.ok (b, st)
  | some _ => Except.error (PyExc.typeError k, st)

/-- The body of the `call_tool` dispatcher: exact name match over the eleven
catalog entries, required arguments looked up with `[]`, optional ones with
`.get`, and `ValueError("Unknown tool: ...")` for anything else. -/
def callToolBody (name : String) (args : Dict) : M (List TextContent) :=
  if name = "couchdb_list_databases" then
    list_databases
  else if name = "couchdb_create_database" then
    M.bind (argStr args "name") (fun n => create_database n)
  else if name = "couchdb_delete_database" then
    M.bind (argStr args "name") (fun n => delete_database n)
  else if name = "couchdb_create_document" then
    M.bind (argStr args "database") (fun database =>
      M.bind (argObj args "document") (fun document =>
        M.bind (argStrOpt args "doc_id") (fun docId =>
          create_document database document docId)))
  else if name = "couchdb_get_document" then
    M.bind (argStr args "database") (fun database =>
      M.bind (argStr args "doc_id") (fun docId =>
        get_document database docId))
  else if name = "couchdb_update_document" then
    M.bind (argStr args "database") (fun database =>
      M.bind (argStr args "doc_id") (fun docId =>
        M.bind (argObj args "document") (fun document =>
          update_document database docId document)))
  else if name = "couchdb_delete_document" then
    M.bind (argStr args "database") (fun database =>
      M.bind (argStr args "doc_id") (fun docId =>
        M.bind (argStr args "rev") (fun rev =>
          delete_document database docId rev)))
  else if name = "couchdb_search_documents" then
    M.bind (argStr args "database") (fun database =>
      M.bind (argObj args "query") (fun query =>
        M.bind (argIntD args "limit" 25) (fun limit =>
          M.bind (argIntD args "skip" 0) (fun skip =>
            search_documents database query limit skip))))
  else if name = "couchdb_list_documents" then
    M.bind (argStr args "database") (fun database =>
      M.bind (argIntOpt args "limit") (fun limit =>
        M.bind (argBoolD args "include_docs" false) (fun includeDocs =>
          list_documents database limit includeDocs)))
  else if name = "couchdb_create_index" then
    M.bind (argStr args "database") (fun database =>
      M.bind (argArr args "fields") (fun fields =>
        M.bind (argStrOpt args "index_name") (fun indexName =>
          create_index database fields indexName)))
  else if name = "couchdb_list_indexes" then
    M.bind (argStr args "database") (fun database => list_indexes database)
  else
    M.throw (PyExc.valueError ("Unknown tool: " ++ name))

/-- The `call_tool` dispatcher: the whole body (handlers, lazy connect,
argument lookups) runs inside `try ... except Exception as e`, which renders
any escaped failure as a single `Error: ...` text block. -/
def call_tool (name : String) (args : Dict) : M (List TextContent) := fun st =>
  match callToolBody name args st with
  | Except.ok r => Except.ok r
  | Except.error (e, st') => Except.ok ([mkText ("Error: " ++ excMsg e)], st')

/-- The names of the eleven supported tools. -/
def toolNames : List String :=
  ["couchdb_list_databases", "couchdb_create_database", "couchdb_delete_database",
   "couchdb_create_document", "couchdb_get_document", "couchdb_update_document",
   "couchdb_delete_document", "couchdb_search_documents", "couchdb_list_documents",
   "couchdb_create_index", "couchdb_list_indexes"]

/-- C1: for every tool name and argument payload, `call_tool` returns a list
of text blocks (it never propagates an exception), and any failure the
dispatcher body raises - handler failures not caught by the handler's own
except clauses, the lazy connect, missing argument keys - is rendered as the
single text block `Error: <message>`. -/
theorem call_tool_contains_all_failures (name : String) (args : Dict) (st : St) :
    (∃ out st2, call_tool name args st = Except.ok (out, st2)) ∧
    (∀ e st2, callToolBody name args st = Except.error (e, st2) →
      call_tool name args st = Except.ok ([mkText ("Error: " ++ excMsg e)], st2)) := by
  unfold call_tool
  cases h : callToolBody name args st with
  | ok r =>
    refine ⟨⟨r.1, r.2, by simp⟩, ?_⟩
    intro e st2 hb
    simp at hb
  | error p =>
    refine ⟨⟨[mkText ("Error: " ++ excMsg p.1)], p.2, by simp⟩, ?_⟩
    intro e st2 hb
    rw [hb]

/-- C7: a tool name outside the catalog of eleven operations yields the error
block `Error: Unknown tool: <name>` - whose text contains the words
`Unknown tool` - without throwing and without touching the state. -/
theorem unknown_tool_rejected (name : String) (args : Dict) (st : St)
    (h : name ∉ toolNames) :
    call_tool name args st =
      Except.ok ([mkText ("Error: " ++ ("Unknown tool: " ++ name))], st) ∧
    ∃ pre post,
      ("Error: " ++ ("Unknown tool: " ++ name)) = pre ++ ("Unknown tool" ++ post) := by
  simp only [toolNames, List.mem_cons, List.mem_singleton, not_or] at h
  obtain ⟨h1, h2, h3, h4, h5, h6, h7, h8, h9, h10, h11, -⟩ := h
  constructor
  · simp [call_tool, callToolBody, h1, h2, h3, h4, h5, h6, h7, h8, h9, h10, h11,
      M.throw, excMsg]
  · refine ⟨"Error: ", ": " ++ name, ?_⟩
    have : ("Unknown tool: " : String) = "Unknown tool" ++ ": " := rfl
    rw [this, String.append_assoc]

/-- C7 witness: the concrete name `nope` is outside the catalog and is
rejected with the `Unknown tool` error block. -/
theorem unknown_tool_rejected_witness :
    ("nope" ∉ toolNames) ∧
    (call_tool "nope" []
        { url := "u", reachable := true, findSupported := true,
          couch := some 7, connCtr := 8,
          srv := { dbs := [], uuidCtr := 0, trace := [] } } =
      Except.ok ([mkText ("Error: " ++ ("Unknown tool: " ++ "nope"))],
        { url := "u", reachable := true, findSupported := true,
          couch := some 7, connCtr := 8,
          srv := { dbs := [], uuidCtr := 0, trace := [] } }) ∧
      ∃ pre post,
        ("Error: " ++ ("Unknown tool: " ++ "nope")) = pre ++ ("Unknown tool" ++ post)) :=
  ⟨by decide, unknown_tool_rejected "nope" [] _ (by decide)⟩

theorem assocGet_set_self {α : Type} (l : List (String × α)) (k : String) (v : α) :
    assocGet (assocSet l k v) k = some v := by
  induction l with
  | nil => simp [assocSet, assocGet]
  | cons p rest ih =>
    obtain ⟨k0, v0⟩ := p
    by_cases h : k0 = k <;> simp [assocSet, assocGet, h, ih]

theorem assocGet_set_ne {α : Type} (l : List (String × α)) (k k' : String) (v : α)
    (h : k' ≠ k) : assocGet (assocSet l k v) k' = assocGet l k' := by
  have hk : ¬ (k = k') := fun e => h e.symm
  induction l with
  | nil => simp [assocSet, assocGet, hk]
  | cons p rest ih =>
    obtain ⟨k0, v0⟩ := p
    by_cases h0 : k0 = k
    · subst h0
      simp [assocSet, assocGet, hk]
    · simp only [assocSet, if_neg h0, assocGet]
      by_cases h1 : k0 = k' <;> simp [h1, ih]

theorem assocGet_filter_ne {α : Type} (l : List (String × α)) (k k0 : String)
    (h : k ≠ k0) :
    assocGet (l.filter (fun p => p.1 ≠ k0)) k = assocGet l k := by
  induction l with
  | nil => simp [assocGet]
  | cons p rest ih =>
    obtain ⟨k1, v1⟩ := p
    simp only [ne_eq, decide_not, List.filter_cons] at ih ⊢
    by_cases h1 : k1 = k0
    · have h0 : ¬ (k0 = k) := fun e => h e.symm
      simp [h1, h0, assocGet, ih]
    · by_cases h2 : k1 = k <;> simp [h1, h2, h, assocGet, ih]

theorem pyMergeId_get_ne (x : String) (d : Dict) (k : String) (h : k ≠ "_id") :
    assocGet (pyMergeId x d) k = assocGet d k := by
  have hk : ¬ (("_id" : String) = k) := fun e => h e.symm
  simp only [pyMergeId, assocGet, if_neg hk]
  exact assocGet_filter_ne d k "_id" h

theorem mergedDoc_get_ne (docId : Option String) (d : Dict) (k : String)
    (h : k ≠ "_id") : assocGet (mergedDoc docId d) k = assocGet d k := by
  unfold mergedDoc
  by_cases ht : truthyStr docId = true
  · simp [ht, pyMergeId_get_ne _ _ _ h]
  · simp [ht]

/-- The state after `_get_server` on a reachable server: unchanged when a
handle exists, else the connected state. -/
def afterConn (st : St) : St :=
  match st.couch with
  | some _ => st
  | none => { st with couch := some st.connCtr, connCtr := st.connCtr + 1 }

/-- The handle `_get_server` hands back. -/
def connHandle (st : St) : Nat :=
  match st.couch with
  | some h => h
  | none => st.connCtr

theorem get_server_run (st : St) (hr : st.reachable = true) :
    get_server st = Except.ok (connHandle st, afterConn st) := by
  cases hc : st.couch with
  | some h => simp [get_server, hc, connHandle, afterConn]
  | none => simp [get_server, hc, connect, hr, connHandle, afterConn]

theorem afterConn_srv (st : St) : (afterConn st).srv = st.srv := by
  cases hc : st.couch <;> simp [afterConn, hc]

theorem afterConn_reachable (st : St) : (afterConn st).reachable = st.reachable := by
  cases hc : st.couch <;> simp [afterConn, hc]

theorem afterConn_findSupported (st : St) :
    (afterConn st).findSupported = st.findSupported := by
  cases hc : st.couch <;> simp [afterConn, hc]

theorem afterConn_couch (st : St) : (afterConn st).couch = some (connHandle st) := by
  cases hc : st.couch <;> simp [afterConn, connHandle, hc]

theorem afterConn_of_couch_some (st : St) (h : st.couch.isSome) : afterConn st = st := by
  cases hc : st.couch with
  | some t => simp [afterConn, hc]
  | none => rw [hc] at h; simp at h

theorem getDb_run (database : String) (st : St) (dbv : Db)
    (hr : st.reachable = true) (hdb : lookupDb st.srv database = some dbv) :
    getDb database st = Except.ok (database, afterConn st) := by
  obtain ⟨u, rch, fsup, cch, cc, srv⟩ := st
  simp only at hr hdb
  subst hr
  cases cch with
  | some h => simp [getDb, M.bind, get_server, srvOp, hdb, afterConn]
  | none => simp [getDb, M.bind, get_server, connect, srvOp, hdb, afterConn]

/-- The stored document a successful save leaves behind. -/
def storedOf (d : Dict) (i : String) (n : Nat) : StoredDoc :=
  { rev := genRev n,
    body := assocSet (assocSet d "_id" (Json.str i)) "_rev" (Json.str (genRev n)) }

theorem saveAt_ok_dest (dbv : Db) (d : Dict) (i0 : String) (n : Nat)
    (i r : String) (dbv2 : Db) (h : saveAt dbv d i0 n = Except.ok (i, r, dbv2)) :
    i = i0 ∧ r = genRev n ∧
    dbv2 = { dbv with docs := assocSet dbv.docs i0 (storedOf d i0 n) } := by
  unfold saveAt at h
  split at h
  · split at h
    · simp only [Except.ok.injEq, Prod.mk.injEq] at h
      exact ⟨h.1.symm, h.2.1.symm, by rw [← h.2.2]; rfl⟩
    · simp at h
  · split at h
    · split at h
      · simp only [Except.ok.injEq, Prod.mk.injEq] at h
        exact ⟨h.1.symm, h.2.1.symm, by rw [← h.2.2]; rfl⟩
      · simp at h
    · simp at h
    · simp at h

theorem savePlan_ok_dest (dbv : Db) (d : Dict) (n : Nat) (i r : String)
    (dbv2 : Db) (h : savePlan dbv d n = Except.ok (i, r, dbv2)) :
    r = genRev n ∧
    dbv2 = { dbv with docs := assocSet dbv.docs i (storedOf d i n) } ∧
    lookupDoc dbv2 i = some (storedOf d i n) := by
  unfold savePlan at h
  split at h
  · obtain ⟨hi, hrv, hdb⟩ := saveAt_ok_dest _ _ _ _ _ _ _ h
    subst hi
    exact ⟨hrv, hdb, by simp [hdb, lookupDoc, assocGet_set_self]⟩
  · simp at h
  · obtain ⟨hi, hrv, hdb⟩ := saveAt_ok_dest _ _ _ _ _ _ _ h
    subst hi
    exact ⟨hrv, hdb, by simp [hdb, lookupDoc, assocGet_set_self]⟩

theorem savePlan_error_cases (dbv : Db) (d : Dict) (n : Nat) (e : PyExc)
    (h : savePlan dbv d n = Except.error e) :
    e = PyExc.resourceConflict conflictDetail ∨
    e = PyExc.serverError badRequestDetail := by
  unfold savePlan saveAt at h
  split at h
  · split at h
    · split at h
      · simp at h
      · simp only [Except.error.injEq] at h
        exact Or.inl h.symm
    · split at h
      · split at h
        · simp at h
        · simp only [Except.error.injEq] at h
          exact Or.inl h.symm
      · simp only [Except.error.injEq] at h
        exact Or.inr h.symm
      · simp only [Except.error.injEq] at h
        exact Or.inl h.symm
  · simp only [Except.error.injEq] at h
    exact Or.inr h.symm
  · split at h
    · split at h
      · simp at h
      · simp only [Except.error.injEq] at h
        exact Or.inl h.symm
    · split at h
      · split at h
        · simp at h
        · simp only [Except.error.injEq] at h
          exact Or.inl h.symm
      · simp only [Except.error.injEq] at h
        exact Or.inr h.symm
      · simp only [Except.error.injEq] at h
        exact Or.inl h.symm

theorem dbSave_run (database : String) (d : Dict) (st : St) (dbv : Db)
    (hr : st.reachable = true) (hdb : lookupDb st.srv database = some dbv) :
    dbSave database d st =
      match savePlan dbv d st.srv.uuidCtr with
      | Except.ok (i, r, dbv2) =>
        Except.ok ((i, r),
          { st with srv := { dbs := assocSet st.srv.dbs database dbv2,
                             uuidCtr := st.srv.uuidCtr + 1,
                             trace := st.srv.trace } })
      | Except.error e => Except.error (e, st) := by
  unfold dbSave srvOp
  simp only [hr, if_true, hdb]
  cases hs : savePlan dbv d st.srv.uuidCtr with
  | ok t => obtain ⟨i, r, dbv2⟩ := t; rfl
  | error e => rfl

/-- The state after a successful save inside a handler (the lazy connect may
have happened, the database was updated, the generation counter bumped). -/
def afterSave (st : St) (database : String) (dbv2 : Db) : St :=
  { afterConn st with srv := { dbs := assocSet st.srv.dbs database dbv2,
                               uuidCtr := st.srv.uuidCtr + 1,
                               trace := st.srv.trace } }

theorem create_document_run (database : String) (document : Dict)
    (docId : Option String) (st : St) (dbv : Db)
    (hr : st.reachable = true) (hdb : lookupDb st.srv database = some dbv) :
    create_document database document docId st =
      match savePlan dbv (mergedDoc docId document) st.srv.uuidCtr with
      | Except.ok (i, r, dbv2) =>
        Except.ok ([mkText (Json.dumps (createResp i r))], afterSave st database dbv2)
      | Except.error e =>
        Except.ok ([mkText ("Error creating document: " ++ excMsg e)], afterConn st) := by
  have hr2 : (afterConn st).reachable = true := by rw [afterConn_reachable]; exact hr
  have hdb2 : lookupDb (afterConn st).srv database = some dbv := by
    rw [afterConn_srv]; exact hdb
  unfold create_document excepts M.bind
  rw [getDb_run database st dbv hr hdb]
  dsimp only
  rw [dbSave_run database (mergedDoc docId document) (afterConn st) dbv hr2 hdb2]
  cases hs : savePlan dbv (mergedDoc docId document) st.srv.uuidCtr with
  | ok t =>
    obtain ⟨i, r, dbv2⟩ := t
    have hs2 : savePlan dbv (mergedDoc docId document) (afterConn st).srv.uuidCtr =
        Except.ok (i, r, dbv2) := by rw [afterConn_srv]; exact hs
    rw [hs2]
    simp [M.pure, afterSave, afterConn_srv]
  | error e =>
    have hs2 : savePlan dbv (mergedDoc docId document) (afterConn st).srv.uuidCtr =
        Except.error e := by rw [afterConn_srv]; exact hs
    rw [hs2]
    obtain he | he := savePlan_error_cases _ _ _ _ hs <;>
      (subst he; simp [runClauses, isKeyError, anyExc, M.pure])

theorem update_document_run (database docId : String) (document : Dict)
    (st : St) (dbv : Db)
    (hr : st.reachable = true) (hdb : lookupDb st.srv database = some dbv) :
    update_document database docId document st =
      match savePlan dbv (injectId document docId) st.srv.uuidCtr with
      | Except.ok (i, r, dbv2) =>
        Except.ok ([mkText (Json.dumps (updateResp i r))], afterSave st database dbv2)
      | Except.error e =>
        Except.ok ([mkText (if isResourceConflict e then updateConflictMsg
                            else "Error updating document: " ++ excMsg e)], afterConn st) := by
  have hr2 : (afterConn st).reachable = true := by rw [afterConn_reachable]; exact hr
  have hdb2 : lookupDb (afterConn st).srv database = some dbv := by
    rw [afterConn_srv]; exact hdb
  unfold update_document excepts M.bind
  rw [getDb_run database st dbv hr hdb]
  dsimp only
  rw [dbSave_run database (injectId document docId) (afterConn st) dbv hr2 hdb2]
  cases hs : savePlan dbv (injectId document docId) st.srv.uuidCtr with
  | ok t =>
    obtain ⟨i, r, dbv2⟩ := t
    have hs2 : savePlan dbv (injectId document docId) (afterConn st).srv.uuidCtr =
        Except.ok (i, r, dbv2) := by rw [afterConn_srv]; exact hs
    rw [hs2]
    simp [M.pure, afterSave, afterConn_srv]
  | error e =>
    have hs2 : savePlan dbv (injectId document docId) (afterConn st).srv.uuidCtr =
        Except.error e := by rw [afterConn_srv]; exact hs
    rw [hs2]
    obtain he | he := savePlan_error_cases _ _ _ _ hs <;>
      (subst he;
       simp [runClauses, isKeyError, isResourceConflict, anyExc, M.pure])

/-- A concrete stored document used by the witnesses. -/
def docA : StoredDoc :=
  { rev := "r-0",
    body := [("_id", Json.str "a1"), ("_rev", Json.str "r-0"), ("kind", Json.str "x")] }

/-- A concrete database holding one document. -/
def dbW : Db :=
  { docs := [("a1", docA)], findFault := none, findWarning := none, indexes := [] }

/-- A concrete reachable, already-connected state holding database `db1`. -/
def stW : St :=
  { url := "u", reachable := true, findSupported := true, couch := some 7, connCtr := 8,
    srv := { dbs := [("db1", dbW)], uuidCtr := 5, trace := [] } }

/-- C5: an `update_document` whose supplied `_rev` differs from the stored
revision yields the conflict message with the refetch guidance, leaves the
stored databases unchanged (no silent overwrite), and performs no retry. -/
theorem update_stale_rev_conflict (database docId : String) (document : Dict)
    (st : St) (dbv : Db) (sd : StoredDoc) (rv : String)
    (hr : st.reachable = true)
    (hdb : lookupDb st.srv database = some dbv)
    (hnoid : assocGet document "_id" = none)
    (hdoc : lookupDoc dbv docId = some sd)
    (hrev : assocGet document "_rev" = some (Json.str rv))
    (hne : rv ≠ sd.rev) :
    ∃ st', update_document database docId document st =
        Except.ok ([mkText updateConflictMsg], st') ∧
      st'.srv.dbs = st.srv.dbs := by
  have hid : assocGet (injectId document docId) "_id" = some (Json.str docId) := by
    simp [injectId, hnoid, assocGet_set_self]
  have hrev2 : assocGet (injectId document docId) "_rev" = some (Json.str rv) := by
    have h1 : assocGet (injectId document docId) "_rev" = assocGet document "_rev" := by
      simp only [injectId, hnoid, Option.isSome_none, Bool.false_eq_true, if_false]
      exact assocGet_set_ne document "_id" "_rev" _ (by decide)
    rw [h1, hrev]
  have hplan : savePlan dbv (injectId document docId) st.srv.uuidCtr =
      Except.error (PyExc.resourceConflict conflictDetail) := by
    simp only [savePlan, hid, saveAt, hdoc, hrev2, if_neg hne]
  refine ⟨afterConn st, ?_, by rw [afterConn_srv]⟩
  rw [update_document_run database docId document st dbv hr hdb, hplan]
  simp [isResourceConflict]

/-- C5 witness: a concrete stale-revision update on `stW` returns the
conflict guidance and leaves the database list untouched. -/
theorem update_stale_rev_conflict_witness :
    stW.reachable = true ∧
    lookupDb stW.srv "db1" = some dbW ∧
    assocGet [("v", Json.num 1), ("_rev", Json.str "r-9")] "_id" = none ∧
    lookupDoc dbW "a1" = some docA ∧
    assocGet [("v", Json.num 1), ("_rev", Json.str "r-9")] "_rev" = some (Json.str "r-9") ∧
    "r-9" ≠ docA.rev ∧
    (∃ st', update_document "db1" "a1" [("v", Json.num 1), ("_rev", Json.str "r-9")] stW =
        Except.ok ([mkText updateConflictMsg], st') ∧
      st'.srv.dbs = stW.srv.dbs) :=
  ⟨rfl, rfl, rfl, rfl, rfl, by decide,
   update_stale_rev_conflict "db1" "a1" [("v", Json.num 1), ("_rev", Json.str "r-9")]
     stW dbW docA "r-9" rfl rfl rfl rfl rfl (by decide)⟩

/-- C10: a `create_document` whose save is rejected with a revision conflict
(here: `doc_id` names an existing document) falls into the generic
`except Exception` clause and reports `Error creating document: <details>`,
with no dedicated conflict branch and no refetch guidance; the stored
databases are unchanged. -/
theorem create_conflict_generic (database : String) (document : Dict) (i : String)
    (st : St) (dbv : Db) (sd : StoredDoc)
    (hr : st.reachable = true)
    (hi : i ≠ "")
    (hdb : lookupDb st.srv database = some dbv)
    (hnoid : assocGet document "_id" = none)
    (hnorev : assocGet document "_rev" = none)
    (hdoc : lookupDoc dbv i = some sd) :
    ∃ st', create_document database document (some i) st =
        Except.ok ([mkText ("Error creating document: " ++
          excMsg (PyExc.resourceConflict conflictDetail))], st') ∧
      st'.srv.dbs = st.srv.dbs := by
  have hmid : assocGet (mergedDoc (some i) document) "_id" = some (Json.str i) := by
    simp [mergedDoc, truthyStr, hi, pyMergeId, hnoid, assocGet]
  have hmrev : assocGet (mergedDoc (some i) document) "_rev" = none := by
    rw [mergedDoc_get_ne (some i) document "_rev" (by decide), hnorev]
  have hplan : savePlan dbv (mergedDoc (some i) document) st.srv.uuidCtr =
      Except.error (PyExc.resourceConflict conflictDetail) := by
    simp only [savePlan, hmid, saveAt, hdoc, hmrev]
  refine ⟨afterConn st, ?_, by rw [afterConn_srv]⟩
  rw [create_document_run database document (some i) st dbv hr hdb, hplan]

/-- C10 witness: creating over the existing id `a1` on `stW` yields the
generic creation error text. -/
theorem create_conflict_generic_witness :
    stW.reachable = true ∧
    ("a1" : String) ≠ "" ∧
    lookupDb stW.srv "db1" = some dbW ∧
    assocGet [("v", Json.num 2)] "_id" = none ∧
    assocGet [("v", Json.num 2)] "_rev" = none ∧
    lookupDoc dbW "a1" = some docA ∧
    (∃ st', create_document "db1" [("v", Json.num 2)] (some "a1") stW =
        Except.ok ([mkText ("Error creating document: " ++
          excMsg (PyExc.resourceConflict conflictDetail))], st') ∧
      st'.srv.dbs = stW.srv.dbs) :=
  ⟨rfl, by decide, rfl, rfl, rfl, rfl,
   create_conflict_generic "db1" [("v", Json.num 2)] "a1" stW dbW docA
     rfl (by decide) rfl rfl rfl rfl⟩

theorem afterSave_reachable (st : St) (database : String) (dbv2 : Db) :
    (afterSave st database dbv2).reachable = st.reachable := by
  simp [afterSave, afterConn_reachable]

theorem afterSave_couch (st : St) (database : String) (dbv2 : Db) :
    (afterSave st database dbv2).couch = some (connHandle st) := by
  simp [afterSave, afterConn_couch]

theorem afterSave_srv (st : St) (database : String) (dbv2 : Db) :
    (afterSave st database dbv2).srv =
      { dbs := assocSet st.srv.dbs database dbv2,
        uuidCtr := st.srv.uuidCtr + 1, trace := st.srv.trace } := rfl

theorem get_document_run_found (database docId : String) (st : St)
    (dbv : Db) (sd : StoredDoc)
    (hr : st.reachable = true) (hdb : lookupDb st.srv database = some dbv)
    (hdoc : lookupDoc dbv docId = some sd)
    (hc : st.couch.isSome) :
    get_document database docId st =
      Except.ok ([mkText (Json.dumps (Json.obj sd.body))], st) := by
  have hac : afterConn st = st := afterConn_of_couch_some st hc
  unfold get_document excepts M.bind
  rw [getDb_run database st dbv hr hdb, hac]
  dsimp only
  unfold dbGetDoc srvOp
  rw [if_pos hr]
  simp only [hdb, hdoc, M.pure]

/-- C6: when a `create_document` save succeeds with id `i` and rev `r`, a
following `get_document` on `i` returns a stored document whose fields are
exactly the input document extended with the injected `_id` and `_rev`
(pointwise equality of the dictionaries; the stored field order may place
`_id` first). -/
theorem create_then_get_roundtrip (database : String) (document : Dict)
    (docId : Option String) (st : St) (dbv dbv2 : Db) (i r : String)
    (hr : st.reachable = true)
    (hdb : lookupDb st.srv database = some dbv)
    (hsave : savePlan dbv (mergedDoc docId document) st.srv.uuidCtr =
      Except.ok (i, r, dbv2)) :
    ∃ st' sd, create_document database document docId st =
        Except.ok ([mkText (Json.dumps (createResp i r))], st') ∧
      get_document database i st' =
        Except.ok ([mkText (Json.dumps (Json.obj sd.body))], st') ∧
      lookupDoc dbv2 i = some sd ∧
      ∀ k, assocGet sd.body k =
        assocGet (assocSet (assocSet document "_id" (Json.str i)) "_rev"
          (Json.str r)) k := by
  obtain ⟨hrv, hdbv2, hlook⟩ := savePlan_ok_dest _ _ _ _ _ _ hsave
  refine ⟨afterSave st database dbv2,
    storedOf (mergedDoc docId document) i st.srv.uuidCtr, ?_, ?_, hlook, ?_⟩
  · rw [create_document_run database document docId st dbv hr hdb, hsave]
  · refine get_document_run_found database i (afterSave st database dbv2) dbv2 _ ?_ ?_ hlook ?_
    · rw [afterSave_reachable]; exact hr
    · rw [afterSave_srv]; exact assocGet_set_self st.srv.dbs database dbv2
    · rw [afterSave_couch]; exact rfl
  · intro k
    subst hrv
    by_cases hk : k = "_rev"
    · subst hk
      simp [storedOf, assocGet_set_self]
    · by_cases hk2 : k = "_id"
      · subst hk2
        rw [storedOf]
        dsimp only
        rw [assocGet_set_ne _ _ _ _ hk, assocGet_set_ne _ _ _ _ hk,
          assocGet_set_self, assocGet_set_self]
      · rw [storedOf]
        dsimp only
        rw [assocGet_set_ne _ _ _ _ hk, assocGet_set_ne _ _ _ _ hk,
          assocGet_set_ne _ _ _ _ hk2, assocGet_set_ne _ _ _ _ hk2]
        exact mergedDoc_get_ne docId document k hk2

/-- The stored document created by the C6 witness run. -/
def sdW2 : StoredDoc :=
  { rev := "r-5",
    body := [("t", Json.str "1"), ("_id", Json.str "gen-5"),
             ("_rev", Json.str "r-5")] }

/-- The database contents after the C6 witness create. -/
def dbW2 : Db :=
  { docs := [("a1", docA), ("gen-5", sdW2)],
    findFault := none, findWarning := none, indexes := [] }

/-- C6 witness: a concrete create/get round trip on `stW`. -/
theorem create_then_get_roundtrip_witness :
    stW.reachable = true ∧
    lookupDb stW.srv "db1" = some dbW ∧
    savePlan dbW (mergedDoc none [("t", Json.str "1")]) stW.srv.uuidCtr =
      Except.ok ("gen-5", "r-5", dbW2) ∧
    (∃ st' sd, create_document "db1" [("t", Json.str "1")] none stW =
        Except.ok ([mkText (Json.dumps (createResp "gen-5" "r-5"))], st') ∧
      get_document "db1" "gen-5" st' =
        Except.ok ([mkText (Json.dumps (Json.obj sd.body))], st') ∧
      lookupDoc dbW2 "gen-5" = some sd ∧
      ∀ k, assocGet sd.body k =
        assocGet (assocSet (assocSet [("t", Json.str "1")] "_id"
          (Json.str "gen-5")) "_rev" (Json.str "r-5")) k) :=
  ⟨rfl, rfl, rfl,
   create_then_get_roundtrip "db1" [("t", Json.str "1")] none stW dbW dbW2
     "gen-5" "r-5" rfl rfl rfl⟩

/-- The document stored by the C2 counterexample run. -/
def sdC2 : StoredDoc :=
  { rev := "r-5", body := [("_id", Json.str "b1"), ("_rev", Json.str "r-5")] }

/-- The database contents after the C2 counterexample run. -/
def dbC2 : Db :=
  { docs := [("a1", docA), ("b1", sdC2)],
    findFault := none, findWarning := none, indexes := [] }

/-- The state after the C2 counterexample run (the new document is stored
under the id the document itself carried, not under `doc_id`). -/
def stC2after : St :=
  { url := "u", reachable := true, findSupported := true, couch := some 7, connCtr := 8,
    srv := { dbs := [("db1", dbC2)], uuidCtr := 6, trace := [] } }

/-- The database after storing `d` under id `i` (generation counter `n`). -/
def dbAfterSave (dbv : Db) (d : Dict) (i : String) (n : Nat) : Db :=
  { dbv with docs := assocSet dbv.docs i (storedOf d i n) }

/-- C2 counterexample: with `doc_id = a9` but a document already carrying
`_id = b1`, the Python merge lets the document's own `_id` win, so the
success output echoes `b1`, not the supplied `doc_id`. -/
theorem create_document_doc_id_not_echoed :
    create_document "db1" [("_id", Json.str "b1")] (some "a9") stW =
      Except.ok ([mkText (Json.dumps (createResp "b1" "r-5"))], stC2after) ∧
    ("b1" : String) ≠ "a9" :=
  ⟨rfl, by decide⟩

/-- C2 amended: without `doc_id` (and a document carrying no `_id`), the
output holds the server-generated id and a rev token; with a truthy `doc_id`
and a document without `_id`, `doc_id` is injected and echoed; but when the
document already carries its own `_id`, that id overrides `doc_id` in the
merge and is the one echoed back. -/
theorem create_document_id_behaviour (database : String) (document d2 : Dict)
    (i j : String) (st : St) (dbv : Db)
    (hr : st.reachable = true)
    (hdb : lookupDb st.srv database = some dbv)
    (hnoid : assocGet document "_id" = none)
    (hnorev : assocGet document "_rev" = none)
    (hi : i ≠ "")
    (hfreshg : lookupDoc dbv (genId st.srv.uuidCtr) = none)
    (hfreshi : lookupDoc dbv i = none)
    (hd2id : assocGet d2 "_id" = some (Json.str j))
    (hd2rev : assocGet d2 "_rev" = none)
    (hfreshj : lookupDoc dbv j = none) :
    (∃ st', create_document database document none st =
      Except.ok ([mkText (Json.dumps (createResp (genId st.srv.uuidCtr)
        (genRev st.srv.uuidCtr)))], st')) ∧
    (∃ st', create_document database document (some i) st =
      Except.ok ([mkText (Json.dumps (createResp i (genRev st.srv.uuidCtr)))], st')) ∧
    (∃ st', create_document database d2 (some i) st =
      Except.ok ([mkText (Json.dumps (createResp j (genRev st.srv.uuidCtr)))], st')) := by
  refine ⟨?_, ?_, ?_⟩
  · have hmd : mergedDoc none document = document := by simp [mergedDoc, truthyStr]
    have hplan : savePlan dbv document st.srv.uuidCtr =
        Except.ok (genId st.srv.uuidCtr, genRev st.srv.uuidCtr,
          dbAfterSave dbv document (genId st.srv.uuidCtr) st.srv.uuidCtr) := by
      simp only [savePlan, hnoid, saveAt, hfreshg, hnorev]
      rfl
    rw [create_document_run database document none st dbv hr hdb, hmd, hplan]
    exact ⟨_, rfl⟩
  · have hmid : assocGet (mergedDoc (some i) document) "_id" = some (Json.str i) := by
      simp [mergedDoc, truthyStr, hi, pyMergeId, hnoid, assocGet]
    have hmrev : assocGet (mergedDoc (some i) document) "_rev" = none := by
      rw [mergedDoc_get_ne (some i) document "_rev" (by decide), hnorev]
    have hplan : savePlan dbv (mergedDoc (some i) document) st.srv.uuidCtr =
        Except.ok (i, genRev st.srv.uuidCtr,
          dbAfterSave dbv (mergedDoc (some i) document) i st.srv.uuidCtr) := by
      simp only [savePlan, hmid, saveAt, hfreshi, hmrev]
      rfl
    rw [create_document_run database document (some i) st dbv hr hdb, hplan]
    exact ⟨_, rfl⟩
  · have hmid : assocGet (mergedDoc (some i) d2) "_id" = some (Json.str j) := by
      simp [mergedDoc, truthyStr, hi, pyMergeId, hd2id, assocGet]
    have hmrev : assocGet (mergedDoc (some i) d2) "_rev" = none := by
      rw [mergedDoc_get_ne (some i) d2 "_rev" (by decide), hd2rev]
    have hplan : savePlan dbv (mergedDoc (some i) d2) st.srv.uuidCtr =
        Except.ok (j, genRev st.srv.uuidCtr,
          dbAfterSave dbv (mergedDoc (some i) d2) j st.srv.uuidCtr) := by
      simp only [savePlan, hmid, saveAt, hfreshj, hmrev]
      rfl
    rw [create_document_run database d2 (some i) st dbv hr hdb, hplan]
    exact ⟨_, rfl⟩

/-- C2 amended witness: concrete runs of the three cases on `stW`. -/
theorem create_document_id_behaviour_witness :
    stW.reachable = true ∧
    lookupDb stW.srv "db1" = some dbW ∧
    assocGet [("t", Json.str "1")] "_id" = none ∧
    assocGet [("t", Json.str "1")] "_rev" = none ∧
    ("n1" : String) ≠ "" ∧
    lookupDoc dbW (genId stW.srv.uuidCtr) = none ∧
    lookupDoc dbW "n1" = none ∧
    assocGet [("_id", Json.str "own1")] "_id" = some (Json.str "own1") ∧
    assocGet [("_id", Json.str "own1")] "_rev" = none ∧
    lookupDoc dbW "own1" = none ∧
    ((∃ st', create_document "db1" [("t", Json.str "1")] none stW =
      Except.ok ([mkText (Json.dumps (createResp (genId stW.srv.uuidCtr)
        (genRev stW.srv.uuidCtr)))], st')) ∧
    (∃ st', create_document "db1" [("t", Json.str "1")] (some "n1") stW =
      Except.ok ([mkText (Json.dumps (createResp "n1" (genRev stW.srv.uuidCtr)))], st')) ∧
    (∃ st', create_document "db1" [("_id", Json.str "own1")] (some "n1") stW =
      Except.ok ([mkText (Json.dumps (createResp "own1" (genRev stW.srv.uuidCtr)))], st'))) :=
  ⟨rfl, rfl, rfl, rfl, by decide, rfl, rfl, rfl, rfl, rfl,
   create_document_id_behaviour "db1" [("t", Json.str "1")] [("_id", Json.str "own1")]
     "n1" "own1" stW dbW rfl rfl rfl rfl (by decide) rfl rfl rfl rfl rfl⟩

/-- The state after one `_find` post has been recorded. -/
def stTrace (st : St) (database : String) (sel : Dict) (limit skip : Int) : St :=
  { st with srv := { st.srv with
      trace := st.srv.trace ++ [Req.findPost database sel limit skip] } }

theorem rawFindPost_run (database : String) (sel : Dict) (limit skip : Int)
    (st : St) (dbv : Db)
    (hr : st.reachable = true) (hdb : lookupDb st.srv database = some dbv)
    (hfault : dbv.findFault = none) :
    rawFindPost database sel limit skip st =
      Except.ok ({ status := 200, headers := stdHeaders,
                   body := serverFindResp dbv sel limit skip },
                 stTrace st database sel limit skip) := by
  unfold rawFindPost srvOp
  rw [if_pos hr]
  simp only [hdb, hfault]
  rfl

/-- The docs the couchdb driver extracts from the `_find` response body. -/
def driverDocs (dbv : Db) (sel : Dict) (limit skip : Int) : List Json :=
  match assocGet (serverFindResp dbv sel limit skip) "docs" with
  | some (Json.arr l) => l
  | _ => []

theorem driverDocs_eq (dbv : Db) (sel : Dict) (limit skip : Int) :
    driverDocs dbv sel limit skip = (mangoExec dbv sel limit skip).map Json.obj := by
  unfold driverDocs serverFindResp
  cases h : dbv.findWarning <;> simp [assocGet]

theorem dbFind_run_ok (database : String) (sel : Dict) (limit skip : Int)
    (st : St) (dbv : Db)
    (hr : st.reachable = true) (hfs : st.findSupported = true)
    (hdb : lookupDb st.srv database = some dbv) (hfault : dbv.findFault = none) :
    dbFind database sel limit skip st =
      Except.ok (driverDocs dbv sel limit skip,
        stTrace st database sel limit skip) := by
  unfold dbFind
  rw [if_pos hfs]
  unfold M.bind
  rw [rawFindPost_run database sel limit skip st dbv hr hdb hfault]
  rfl

theorem dbFind_run_unsupported (database : String) (sel : Dict) (limit skip : Int)
    (st : St) (hfs : st.findSupported = false) :
    dbFind database sel limit skip st =
      Except.error (PyExc.attributeError "Database object has no attribute find", st) := by
  unfold dbFind
  rw [if_neg (by rw [hfs]; exact Bool.false_ne_true)]

/-- The response object of the primary search path. -/
def primaryResp (dbv : Db) (sel : Dict) (limit skip : Int) : Dict :=
  let docs := driverDocs dbv sel limit skip
  let response : Dict :=
    [("docs", Json.arr docs), ("count", Json.num (Int.ofNat docs.length))]
  if docs.length = 0 then assocSet response "note" (Json.str noteText) else response

theorem search_primary_run (database : String) (sel : Dict) (limit skip : Int)
    (st : St) (dbv : Db)
    (hr : st.reachable = true) (hdb : lookupDb st.srv database = some dbv)
    (hfault : dbv.findFault = none) (hfs : st.findSupported = true) :
    search_documents database sel limit skip st =
      Except.ok ([mkText (Json.dumps (Json.obj (primaryResp dbv sel limit skip)))],
        stTrace (afterConn st) database sel limit skip) := by
  have hr2 : (afterConn st).reachable = true := by rw [afterConn_reachable]; exact hr
  have hdb2 : lookupDb (afterConn st).srv database = some dbv := by
    rw [afterConn_srv]; exact hdb
  have hfs2 : (afterConn st).findSupported = true := by
    rw [afterConn_findSupported]; exact hfs
  unfold search_documents excepts M.bind
  rw [getDb_run database st dbv hr hdb]
  dsimp only
  rw [dbFind_run_ok database sel limit skip (afterConn st) dbv hr2 hfs2 hdb2 hfault]
  rfl

/-- The fields of a zero-doc search success output: empty docs, count 0 and
the advisory note pointing at `couchdb_list_documents`. -/
def emptySearchRespFields : Dict :=
  [("docs", Json.arr []), ("count", Json.num 0), ("note", Json.str noteText)]

theorem search_fallback_run (database : String) (query : Dict) (limit skip : Int)
    (st : St) (dbv : Db)
    (hr : st.reachable = true) (hdb : lookupDb st.srv database = some dbv)
    (hfault : dbv.findFault = none) :
    search_documents_fallback database query limit skip st =
      Except.ok ([mkText (Json.dumps (Json.obj emptySearchRespFields))],
        stTrace (afterConn st) database query limit skip) := by
  have hr2 : (afterConn st).reachable = true := by rw [afterConn_reachable]; exact hr
  have hdb2 : lookupDb (afterConn st).srv database = some dbv := by
    rw [afterConn_srv]; exact hdb
  unfold search_documents_fallback excepts M.bind
  rw [getDb_run database st dbv hr hdb]
  dsimp only
  rw [rawFindPost_run database query limit skip (afterConn st) dbv hr2 hdb2 hfault]
  rfl

theorem search_fallback_taken (database : String) (query : Dict) (limit skip : Int)
    (st : St) (dbv : Db)
    (hfs : st.findSupported = false)
    (hr : st.reachable = true) (hdb : lookupDb st.srv database = some dbv) :
    search_documents database query limit skip st =
      search_documents_fallback database query limit skip (afterConn st) := by
  have hfs2 : (afterConn st).findSupported = false := by
    rw [afterConn_findSupported]; exact hfs
  unfold search_documents excepts M.bind
  rw [getDb_run database st dbv hr hdb]
  dsimp only
  rw [dbFind_run_unsupported database query limit skip (afterConn st) hfs2]
  rfl

theorem afterConn_idem (st : St) : afterConn (afterConn st) = afterConn st :=
  afterConn_of_couch_some _ (by rw [afterConn_couch]; rfl)

/-- C4 amended: when the primary query path fails because the driver method
is unavailable (`AttributeError`), the fallback is taken - the whole call
behaves exactly as a direct fallback call - and the fallback posts one raw
`_find` request carrying exactly the same selector, limit and skip; but its
success output is always the empty docs/count-0/note object (it reads the
headers component of the response triple), so the two paths are not
output-equivalent. -/
theorem search_fallback_same_params_not_equivalent (database : String)
    (query : Dict) (limit skip : Int) (st : St) (dbv : Db)
    (hfs : st.findSupported = false)
    (hr : st.reachable = true) (hdb : lookupDb st.srv database = some dbv)
    (hfault : dbv.findFault = none) :
    search_documents database query limit skip st =
      search_documents_fallback database query limit skip st ∧
    ∃ st', search_documents database query limit skip st =
        Except.ok ([mkText (Json.dumps (Json.obj emptySearchRespFields))], st') ∧
      st'.srv.trace = st.srv.trace ++ [Req.findPost database query limit skip] := by
  have hr2 : (afterConn st).reachable = true := by rw [afterConn_reachable]; exact hr
  have hdb2 : lookupDb (afterConn st).srv database = some dbv := by
    rw [afterConn_srv]; exact hdb
  have htaken := search_fallback_taken database query limit skip st dbv hfs hr hdb
  have hfb2 := search_fallback_run database query limit skip (afterConn st) dbv hr2 hdb2 hfault
  have hfb1 := search_fallback_run database query limit skip st dbv hr hdb hfault
  rw [afterConn_idem] at hfb2
  refine ⟨by rw [htaken, hfb2, hfb1], ?_⟩
  refine ⟨stTrace (afterConn st) database query limit skip, by rw [htaken, hfb2], ?_⟩
  simp [stTrace, afterConn_srv]

/-- C4 amended witness: on `stW` with the driver method unavailable, the
search equals the fallback, posts the same selector/limit/skip, and reports
zero docs. -/
theorem search_fallback_same_params_witness :
    ({ stW with findSupported := false } : St).findSupported = false ∧
    ({ stW with findSupported := false } : St).reachable = true ∧
    lookupDb ({ stW with findSupported := false } : St).srv "db1" = some dbW ∧
    dbW.findFault = none ∧
    (search_documents "db1" [("kind", Json.str "x")] 25 0
        ({ stW with findSupported := false }) =
      search_documents_fallback "db1" [("kind", Json.str "x")] 25 0
        ({ stW with findSupported := false }) ∧
    ∃ st', search_documents "db1" [("kind", Json.str "x")] 25 0
        ({ stW with findSupported := false }) =
        Except.ok ([mkText (Json.dumps (Json.obj emptySearchRespFields))], st') ∧
      st'.srv.trace = ({ stW with findSupported := false } : St).srv.trace ++
        [Req.findPost "db1" [("kind", Json.str "x")] 25 0]) :=
  ⟨rfl, rfl, rfl, rfl,
   search_fallback_same_params_not_equivalent "db1" [("kind", Json.str "x")] 25 0
     ({ stW with findSupported := false }) dbW rfl rfl rfl rfl⟩

/-- A stored document matching the counterexample selector. -/
def sdS : StoredDoc :=
  { rev := "r-1",
    body := [("_id", Json.str "d1"), ("_rev", Json.str "r-1"),
             ("name", Json.str "ann")] }

/-- A database with one matching document. -/
def dbS : Db :=
  { docs := [("d1", sdS)], findFault := none, findWarning := none, indexes := [] }

/-- Connected state over `dbS`, driver `find` available. -/
def stS : St :=
  { url := "u", reachable := true, findSupported := true, couch := some 3, connCtr := 4,
    srv := { dbs := [("s1", dbS)], uuidCtr := 0, trace := [] } }

/-- The same state with the driver `find` method unavailable, so that the
same search is served by the fallback path. -/
def stSnf : St := { stS with findSupported := false }

/-- The counterexample selector. -/
def selS : Dict := [("name", Json.str "ann")]

/-- The primary path's success output on `stS`: the matching doc, count 1. -/
def primaryOutS : Dict :=
  [("docs", Json.arr [Json.obj sdS.body]), ("count", Json.num 1)]

/-- Number of fields of a JSON object. -/
def fieldCount : Json → Nat
  | Json.obj fs => fs.length
  | _ => 0

/-- C4 counterexample: same database contents, same selector/limit/skip; the
primary path returns the matching document, the fallback path returns zero
docs - the two paths are not functionally equivalent on the same input. -/
theorem search_paths_not_equivalent :
    search_documents "s1" selS 25 0 stS =
      Except.ok ([mkText (Json.dumps (Json.obj primaryOutS))],
        stTrace stS "s1" selS 25 0) ∧
    search_documents "s1" selS 25 0 stSnf =
      Except.ok ([mkText (Json.dumps (Json.obj emptySearchRespFields))],
        stTrace stSnf "s1" selS 25 0) ∧
    Json.obj primaryOutS ≠ Json.obj emptySearchRespFields :=
  ⟨rfl, rfl, fun h => absurd (congrArg fieldCount h) (by decide)⟩

/-- C3 amended: a successful `search_documents` never carries a `warning`
field in its output, on either path: the primary driver path extracts only
the docs from the response body, and the fallback reads the headers
component of the response triple, where no warning lives. -/
theorem search_never_surfaces_warning (database : String) (sel : Dict)
    (limit skip : Int) (st : St) (dbv : Db)
    (hr : st.reachable = true) (hdb : lookupDb st.srv database = some dbv)
    (hfault : dbv.findFault = none) :
    ∃ st' fields, search_documents database sel limit skip st =
        Except.ok ([mkText (Json.dumps (Json.obj fields))], st') ∧
      assocGet fields "warning" = none := by
  cases hfs : st.findSupported with
  | true =>
    refine ⟨stTrace (afterConn st) database sel limit skip,
      primaryResp dbv sel limit skip,
      search_primary_run database sel limit skip st dbv hr hdb hfault hfs, ?_⟩
    unfold primaryResp
    by_cases hl : (driverDocs dbv sel limit skip).length = 0 <;>
      simp [hl, assocSet, assocGet]
  | false =>
    have htaken := search_fallback_taken database sel limit skip st dbv hfs hr hdb
    have hr2 : (afterConn st).reachable = true := by rw [afterConn_reachable]; exact hr
    have hdb2 : lookupDb (afterConn st).srv database = some dbv := by
      rw [afterConn_srv]; exact hdb
    have hfb := search_fallback_run database sel limit skip (afterConn st) dbv hr2 hdb2 hfault
    rw [afterConn_idem] at hfb
    exact ⟨stTrace (afterConn st) database sel limit skip, emptySearchRespFields,
      by rw [htaken, hfb], rfl⟩

/-- A database whose `_find` responses carry a missing-index warning. -/
def dbWarn : Db :=
  { docs := [], findFault := none,
    findWarning := some "no matching index found", indexes := [] }

/-- Connected state over `dbWarn`, driver `find` available. -/
def stWarn : St :=
  { url := "u", reachable := true, findSupported := true, couch := some 3, connCtr := 4,
    srv := { dbs := [("w1", dbWarn)], uuidCtr := 0, trace := [] } }

/-- C3 counterexample: the server's `_find` response body carries a warning
field, yet the primary driver path's success output is an object without any
`warning` key - the warning is not surfaced. -/
theorem search_warning_dropped :
    dbWarn.findWarning = some "no matching index found" ∧
    assocGet (serverFindResp dbWarn [] 25 0) "warning" =
      some (Json.str "no matching index found") ∧
    search_documents "w1" [] 25 0 stWarn =
      Except.ok ([mkText (Json.dumps (Json.obj emptySearchRespFields))],
        stTrace stWarn "w1" [] 25 0) ∧
    assocGet emptySearchRespFields "warning" = none :=
  ⟨rfl, rfl, rfl, rfl⟩

/-- C3 amended witness: a concrete search over `stWarn` whose output object
has no warning field. -/
theorem search_never_surfaces_warning_witness :
    stWarn.reachable = true ∧
    lookupDb stWarn.srv "w1" = some dbWarn ∧
    dbWarn.findFault = none ∧
    (∃ st' fields, search_documents "w1" [] 25 0 stWarn =
        Except.ok ([mkText (Json.dumps (Json.obj fields))], st') ∧
      assocGet fields "warning" = none) :=
  ⟨rfl, rfl, rfl,
   search_never_surfaces_warning "w1" [] 25 0 stWarn dbWarn rfl rfl rfl⟩

theorem call_tool_search_reduces (args : Dict) (st : St) (database : String)
    (sel : Dict)
    (hdbarg : assocGet args "database" = some (Json.str database))
    (hqarg : assocGet args "query" = some (Json.obj sel))
    (hlim : assocGet args "limit" = none)
    (hskip : assocGet args "skip" = none) :
    callToolBody "couchdb_search_documents" args st =
      search_documents database sel 25 0 st := by
  simp [callToolBody, M.bind, argStr, argObj, argIntD, hdbarg, hqarg, hlim, hskip]

/-- C8: a `search_documents` call whose payload omits `limit` and `skip` is
executed with limit 25 and skip 0 (the `_find` post carries exactly these),
and when the selector matches zero documents the success output is count 0
plus the advisory note referencing `couchdb_list_documents`. -/
theorem search_defaults_and_empty_note (args : Dict) (st : St)
    (database : String) (sel : Dict) (dbv : Db)
    (hdbarg : assocGet args "database" = some (Json.str database))
    (hqarg : assocGet args "query" = some (Json.obj sel))
    (hlim : assocGet args "limit" = none)
    (hskip : assocGet args "skip" = none)
    (hr : st.reachable = true)
    (hdb : lookupDb st.srv database = some dbv)
    (hfault : dbv.findFault = none)
    (hempty : mangoExec dbv sel 25 0 = []) :
    ∃ st', call_tool "couchdb_search_documents" args st =
        Except.ok ([mkText (Json.dumps (Json.obj emptySearchRespFields))], st') ∧
      st'.srv.trace = st.srv.trace ++ [Req.findPost database sel 25 0] := by
  have hbody := call_tool_search_reduces args st database sel hdbarg hqarg hlim hskip
  have hout : search_documents database sel 25 0 st =
      Except.ok ([mkText (Json.dumps (Json.obj emptySearchRespFields))],
        stTrace (afterConn st) database sel 25 0) := by
    cases hfs : st.findSupported with
    | true =>
      rw [search_primary_run database sel 25 0 st dbv hr hdb hfault hfs]
      have hdocs : driverDocs dbv sel 25 0 = [] := by
        rw [driverDocs_eq, hempty]
        rfl
      have hresp : primaryResp dbv sel 25 0 = emptySearchRespFields := by
        unfold primaryResp
        rw [hdocs]
        rfl
      rw [hresp]
    | false =>
      have htaken := search_fallback_taken database sel 25 0 st dbv hfs hr hdb
      have hr2 : (afterConn st).reachable = true := by rw [afterConn_reachable]; exact hr
      have hdb2 : lookupDb (afterConn st).srv database = some dbv := by
        rw [afterConn_srv]; exact hdb
      have hfb := search_fallback_run database sel 25 0 (afterConn st) dbv hr2 hdb2 hfault
      rw [afterConn_idem] at hfb
      rw [htaken, hfb]
  refine ⟨stTrace (afterConn st) database sel 25 0, ?_, by simp [stTrace, afterConn_srv]⟩
  unfold call_tool
  rw [hbody, hout]

/-- C8 witness: a concrete no-limit/no-skip search over `stW` whose selector
matches nothing. -/
theorem search_defaults_and_empty_note_witness :
    assocGet [("database", Json.str "db1"),
              ("query", Json.obj [("kind", Json.str "zz")])] "database" =
      some (Json.str "db1") ∧
    assocGet [("database", Json.str "db1"),
              ("query", Json.obj [("kind", Json.str "zz")])] "query" =
      some (Json.obj [("kind", Json.str "zz")]) ∧
    assocGet [("database", Json.str "db1"),
              ("query", Json.obj [("kind", Json.str "zz")])] "limit" = none ∧
    assocGet [("database", Json.str "db1"),
              ("query", Json.obj [("kind", Json.str "zz")])] "skip" = none ∧
    stW.reachable = true ∧
    lookupDb stW.srv "db1" = some dbW ∧
    dbW.findFault = none ∧
    mangoExec dbW [("kind", Json.str "zz")] 25 0 = [] ∧
    (∃ st', call_tool "couchdb_search_documents"
        [("database", Json.str "db1"),
         ("query", Json.obj [("kind", Json.str "zz")])] stW =
        Except.ok ([mkText (Json.dumps (Json.obj emptySearchRespFields))], st') ∧
      st'.srv.trace = stW.srv.trace ++
        [Req.findPost "db1" [("kind", Json.str "zz")] 25 0]) :=
  ⟨rfl, rfl, rfl, rfl, rfl, rfl, rfl, rfl,
   search_defaults_and_empty_note
     [("database", Json.str "db1"), ("query", Json.obj [("kind", Json.str "zz")])]
     stW "db1" [("kind", Json.str "zz")] dbW rfl rfl rfl rfl rfl rfl rfl rfl⟩

/-- `m` neither replaces the connection handle nor performs another connect
attempt (the connect counter is untouched) whenever a handle already
exists on entry. -/
def PreservesConn {α : Type} (m : M α) : Prop :=
  ∀ st, st.couch.isSome = true →
    (∀ a st', m st = Except.ok (a, st') →
      st'.couch = st.couch ∧ st'.connCtr = st.connCtr) ∧
    (∀ e st', m st = Except.error (e, st') →
      st'.couch = st.couch ∧ st'.connCtr = st.connCtr)

theorem stateFixed_preserves {α : Type} (m : M α)
    (h : ∀ st, match m st with
         | Except.ok (_, st') => st' = st
         | Except.error (_, st') => st' = st) : PreservesConn m := by
  intro st _
  have hm := h st
  constructor
  · intro a st' hh
    rw [hh] at hm
    simp only at hm
    rw [hm]
    exact ⟨rfl, rfl⟩
  · intro e st' hh
    rw [hh] at hm
    simp only at hm
    rw [hm]
    exact ⟨rfl, rfl⟩

theorem preservesConn_pure {α : Type} (a : α) : PreservesConn (M.pure a) :=
  stateFixed_preserves _ (fun _ => rfl)

theorem preservesConn_throw {α : Type} (e : PyExc) :
    PreservesConn (M.throw (α := α) e) :=
  stateFixed_preserves _ (fun _ => rfl)

theorem preservesConn_srvOp {α : Type} (f : SrvSt → Except PyExc (α × SrvSt)) :
    PreservesConn (srvOp f) := by
  intro st _
  constructor
  · intro a st' hh
    unfold srvOp at hh
    by_cases hr : st.reachable = true
    · rw [if_pos hr] at hh
      cases hf : f st.srv with
      | ok p =>
        rw [hf] at hh
        simp only [Except.ok.injEq, Prod.mk.injEq] at hh
        rw [← hh.2]
        exact ⟨rfl, rfl⟩
      | error e2 =>
        rw [hf] at hh
        simp at hh
    · rw [if_neg hr] at hh
      simp at hh
  · intro e st' hh
    unfold srvOp at hh
    by_cases hr : st.reachable = true
    · rw [if_pos hr] at hh
      cases hf : f st.srv with
      | ok p =>
        rw [hf] at hh
        simp at hh
      | error e2 =>
        rw [hf] at hh
        simp only [Except.error.injEq, Prod.mk.injEq] at hh
        rw [← hh.2]
        exact ⟨rfl, rfl⟩
    · rw [if_neg hr] at hh
      simp only [Except.error.injEq, Prod.mk.injEq] at hh
      rw [← hh.2]
      exact ⟨rfl, rfl⟩

theorem preservesConn_get_server : PreservesConn get_server := by
  intro st hs
  cases hc : st.couch with
  | none => rw [hc] at hs; simp at hs
  | some h =>
    constructor
    · intro a st' hh
      unfold get_server at hh
      rw [hc] at hh
      simp only [Except.ok.injEq, Prod.mk.injEq] at hh
      rw [← hh.2]
      exact ⟨hc, rfl⟩
    · intro e st' hh
      unfold get_server at hh
      rw [hc] at hh
      simp at hh

theorem preservesConn_bind {α β : Type} (m : M α) (k : α → M β)
    (hm : PreservesConn m) (hk : ∀ a, PreservesConn (k a)) :
    PreservesConn (M.bind m k) := by
  intro st hs
  constructor
  · intro b st' hh
    unfold M.bind at hh
    cases h1 : m st with
    | ok p =>
      rw [h1] at hh
      obtain ⟨a, st1⟩ := p
      have e1 := (hm st hs).1 a st1 h1
      have hs1 : st1.couch.isSome = true := by rw [e1.1]; exact hs
      have e2 := (hk a st1 hs1).1 b st' hh
      exact ⟨e2.1.trans e1.1, e2.2.trans e1.2⟩
    | error p =>
      rw [h1] at hh
      simp at hh
  · intro e st' hh
    unfold M.bind at hh
    cases h1 : m st with
    | ok p =>
      rw [h1] at hh
      obtain ⟨a, st1⟩ := p
      have e1 := (hm st hs).1 a st1 h1
      have hs1 : st1.couch.isSome = true := by rw [e1.1]; exact hs
      have e2 := (hk a st1 hs1).2 e st' hh
      exact ⟨e2.1.trans e1.1, e2.2.trans e1.2⟩
    | error p =>
      rw [h1] at hh
      obtain ⟨e2, st2⟩ := p
      simp only [Except.error.injEq, Prod.mk.injEq] at hh
      obtain ⟨he, hst⟩ := hh
      have e1 := (hm st hs).2 e2 st2 h1
      rw [← hst]
      exact e1

/-- Every handler of a clause list preserves the connection fields. -/
def ClausesPreserve {α : Type}
    (clauses : List ((PyExc → Bool) × (PyExc → M α))) : Prop :=
  ∀ c ∈ clauses, ∀ e, PreservesConn (c.2 e)

theorem preservesConn_runClauses {α : Type}
    (clauses : List ((PyExc → Bool) × (PyExc → M α))) (e : PyExc)
    (hc : ClausesPreserve clauses) :
    PreservesConn (fun st => runClauses clauses e st) := by
  induction clauses with
  | nil => exact stateFixed_preserves _ (fun _ => rfl)
  | cons c rest ih =>
    obtain ⟨p, h⟩ := c
    by_cases hp : p e = true
    · have heq : (fun st => runClauses ((p, h) :: rest) e st) = h e := by
        funext st
        simp [runClauses, hp]
      rw [heq]
      exact hc (p, h) (List.mem_cons_self _ _) e
    · have heq : (fun st => runClauses ((p, h) :: rest) e st) =
          fun st => runClauses rest e st := by
        funext st
        simp [runClauses, hp]
      rw [heq]
      exact ih (fun c hm e' => hc c (List.mem_cons_of_mem _ hm) e')

theorem preservesConn_excepts {α : Type} (body : M α)
    (clauses : List ((PyExc → Bool) × (PyExc → M α)))
    (hb : PreservesConn body) (hc : ClausesPreserve clauses) :
    PreservesConn (excepts body clauses) := by
  intro st hs
  constructor
  · intro a st' hh
    unfold excepts at hh
    cases h1 : body st with
    | ok p =>
      rw [h1] at hh
      simp only [Except.ok.injEq] at hh
      obtain ⟨a1, st1⟩ := p
      have e1 := (hb st hs).1 a1 st1 h1
      simp only [Prod.mk.injEq] at hh
      rw [← hh.2]
      exact e1
    | error p =>
      rw [h1] at hh
      obtain ⟨e1, st1⟩ := p
      have d1 := (hb st hs).2 e1 st1 h1
      have hs1 : st1.couch.isSome = true := by rw [d1.1]; exact hs
      have e2 := (preservesConn_runClauses clauses e1 hc st1 hs1).1 a st' hh
      exact ⟨e2.1.trans d1.1, e2.2.trans d1.2⟩
  · intro e st' hh
    unfold excepts at hh
    cases h1 : body st with
    | ok p =>
      rw [h1] at hh
      simp at hh
    | error p =>
      rw [h1] at hh
      obtain ⟨e1, st1⟩ := p
      have d1 := (hb st hs).2 e1 st1 h1
      have hs1 : st1.couch.isSome = true := by rw [d1.1]; exact hs
      have e2 := (preservesConn_runClauses clauses e1 hc st1 hs1).2 e st' hh
      exact ⟨e2.1.trans d1.1, e2.2.trans d1.2⟩

theorem clausesPreserve_nil {α : Type} :
    ClausesPreserve ([] : List ((PyExc → Bool) × (PyExc → M α))) :=
  fun c hm => absurd hm (List.not_mem_nil c)

theorem clausesPreserve_cons {α : Type} (p : PyExc → Bool) (h : PyExc → M α)
    (rest : List ((PyExc → Bool) × (PyExc → M α)))
    (hh : ∀ e, PreservesConn (h e)) (hr : ClausesPreserve rest) :
    ClausesPreserve ((p, h) :: rest) := by
  intro c hm e
  rcases List.mem_cons.mp hm with rfl | hm2
  · exact hh e
  · exact hr c hm2 e

theorem preservesConn_argStr (args : Dict) (k : String) :
    PreservesConn (argStr args k) := by
  apply stateFixed_preserves
  intro st
  unfold argStr
  cases h : assocGet args k with
  | none => rfl
  | some v => cases v <;> rfl

theorem preservesConn_argObj (args : Dict) (k : String) :
    PreservesConn (argObj args k) := by
  apply stateFixed_preserves
  intro st
  unfold argObj
  cases h : assocGet args k with
  | none => rfl
  | some v => cases v <;> rfl

theorem preservesConn_argArr (args : Dict) (k : String) :
    PreservesConn (argArr args k) := by
  apply stateFixed_preserves
  intro st
  unfold argArr
  cases h : assocGet args k with
  | none => rfl
  | some v => cases v <;> rfl

theorem preservesConn_argStrOpt (args : Dict) (k : String) :
    PreservesConn (argStrOpt args k) := by
  apply stateFixed_preserves
  intro st
  unfold argStrOpt
  cases h : assocGet args k with
  | none => rfl
  | some v => cases v <;> rfl

theorem preservesConn_argIntD (args : Dict) (k : String) (d : Int) :
    PreservesConn (argIntD args k d) := by
  apply stateFixed_preserves
  intro st
  unfold argIntD
  cases h : assocGet args k with
  | none => rfl
  | some v => cases v <;> rfl

theorem preservesConn_argIntOpt (args : Dict) (k : String) :
    PreservesConn (argIntOpt args k) := by
  apply stateFixed_preserves
  intro st
  unfold argIntOpt
  cases h : assocGet args k with
  | none => rfl
  | some v => cases v <;> rfl

theorem preservesConn_argBoolD (args : Dict) (k : String) (d : Bool) :
    PreservesConn (argBoolD args k d) := by
  apply stateFixed_preserves
  intro st
  unfold argBoolD
  cases h : assocGet args k with
  | none => rfl
  | some v => cases v <;> rfl

theorem preservesConn_getDb (database : String) : PreservesConn (getDb database) :=
  preservesConn_bind _ _ preservesConn_get_server (fun _ => preservesConn_srvOp _)

theorem preservesConn_dbFind (database : String) (sel : Dict) (limit skip : Int) :
    PreservesConn (dbFind database sel limit skip) := by
  intro st hs
  by_cases hf : st.findSupported = true
  · have heq : dbFind database sel limit skip st =
        (M.bind (rawFindPost database sel limit skip) (fun result =>
          M.pure (match assocGet result.body "docs" with
                  | some (Json.arr l) => l
                  | _ => []))) st := by
      unfold dbFind
      rw [if_pos hf]
    constructor
    · intro a st' hh
      rw [heq] at hh
      exact (preservesConn_bind _ _ (preservesConn_srvOp _)
        (fun r => preservesConn_pure _) st hs).1 a st' hh
    · intro e st' hh
      rw [heq] at hh
      exact (preservesConn_bind _ _ (preservesConn_srvOp _)
        (fun r => preservesConn_pure _) st hs).2 e st' hh
  · have heq : dbFind database sel limit skip st =
        Except.error (PyExc.attributeError "Database object has no attribute find", st) := by
      unfold dbFind
      rw [if_neg hf]
    constructor
    · intro a st' hh
      rw [heq] at hh
      simp at hh
    · intro e st' hh
      rw [heq] at hh
      simp only [Except.error.injEq, Prod.mk.injEq] at hh
      rw [← hh.2]
      exact ⟨rfl, rfl⟩

theorem preservesConn_list_databases : PreservesConn list_databases :=
  preservesConn_bind _ _ preservesConn_get_server
    (fun _ => preservesConn_bind _ _ (preservesConn_srvOp _)
      (fun _ => preservesConn_pure _))

theorem preservesConn_create_database (name : String) :
    PreservesConn (create_database name) :=
  preservesConn_excepts _ _
    (preservesConn_bind _ _ preservesConn_get_server
      (fun _ => preservesConn_bind _ _ (preservesConn_srvOp _)
        (fun _ => preservesConn_pure _)))
    (clausesPreserve_cons _ _ _ (fun _ => preservesConn_pure _) clausesPreserve_nil)

theorem preservesConn_delete_database (name : String) :
    PreservesConn (delete_database name) :=
  preservesConn_excepts _ _
    (preservesConn_bind _ _ preservesConn_get_server
      (fun _ => preservesConn_bind _ _ (preservesConn_srvOp _)
        (fun _ => preservesConn_pure _)))
    (clausesPreserve_cons _ _ _ (fun _ => preservesConn_pure _) clausesPreserve_nil)

theorem preservesConn_create_document (database : String) (document : Dict)
    (docId : Option String) : PreservesConn (create_document database document docId) :=
  preservesConn_excepts _ _
    (preservesConn_bind _ _ (preservesConn_getDb database)
      (fun _ => preservesConn_bind _ _ (preservesConn_srvOp _)
        (fun _ => preservesConn_pure _)))
    (clausesPreserve_cons _ _ _ (fun _ => preservesConn_pure _)
      (clausesPreserve_cons _ _ _ (fun _ => preservesConn_pure _) clausesPreserve_nil))

theorem preservesConn_get_document (database docId : String) :
    PreservesConn (get_document database docId) :=
  preservesConn_excepts _ _
    (preservesConn_bind _ _ (preservesConn_getDb database)
      (fun _ => preservesConn_bind _ _ (preservesConn_srvOp _)
        (fun _ => preservesConn_pure _)))
    (clausesPreserve_cons _ _ _ (fun _ => preservesConn_pure _)
      (clausesPreserve_cons _ _ _ (fun _ => preservesConn_pure _) clausesPreserve_nil))

theorem preservesConn_update_document (database docId : String) (document : Dict) :
    PreservesConn (update_document database docId document) :=
  preservesConn_excepts _ _
    (preservesConn_bind _ _ (preservesConn_getDb database)
      (fun _ => preservesConn_bind _ _ (preservesConn_srvOp _)
        (fun _ => preservesConn_pure _)))
    (clausesPreserve_cons _ _ _ (fun _ => preservesConn_pure _)
      (clausesPreserve_cons _ _ _ (fun _ => preservesConn_pure _)
        (clausesPreserve_cons _ _ _ (fun _ => preservesConn_pure _) clausesPreserve_nil)))

theorem preservesConn_delete_document (database docId rev : String) :
    PreservesConn (delete_document database docId rev) :=
  preservesConn_excepts _ _
    (preservesConn_bind _ _ (preservesConn_getDb database)
      (fun _ => preservesConn_bind _ _ (preservesConn_srvOp _)
        (fun _ => preservesConn_pure _)))
    (clausesPreserve_cons _ _ _ (fun _ => preservesConn_pure _)
      (clausesPreserve_cons _ _ _ (fun _ => preservesConn_pure _)
        (clausesPreserve_cons _ _ _ (fun _ => preservesConn_pure _) clausesPreserve_nil)))

theorem preservesConn_search_documents_fallback (database : String) (query : Dict)
    (limit skip : Int) : PreservesConn (search_documents_fallback database query limit skip) :=
  preservesConn_excepts _ _
    (preservesConn_bind _ _ (preservesConn_getDb database)
      (fun _ => preservesConn_bind _ _ (preservesConn_srvOp _)
        (fun _ => preservesConn_pure _)))
    (clausesPreserve_cons _ _ _ (fun _ => preservesConn_pure _) clausesPreserve_nil)

theorem preservesConn_search_documents (database : String) (query : Dict)
    (limit skip : Int) : PreservesConn (search_documents database query limit skip) :=
  preservesConn_excepts _ _
    (preservesConn_bind _ _ (preservesConn_getDb database)
      (fun _ => preservesConn_bind _ _ (preservesConn_dbFind database query limit skip)
        (fun _ => preservesConn_pure _)))
    (clausesPreserve_cons _ _ _ (fun _ => preservesConn_pure _)
      (clausesPreserve_cons _ _ _
        (fun _ => preservesConn_search_documents_fallback database query limit skip)
        (clausesPreserve_cons _ _ _ (fun _ => preservesConn_pure _) clausesPreserve_nil)))

theorem preservesConn_list_documents (database : String) (limit : Option Int)
    (includeDocs : Bool) : PreservesConn (list_documents database limit includeDocs) :=
  preservesConn_excepts _ _
    (preservesConn_bind _ _ (preservesConn_getDb database)
      (fun _ => preservesConn_bind _ _ (preservesConn_srvOp _)
        (fun _ => preservesConn_pure _)))
    (clausesPreserve_cons _ _ _ (fun _ => preservesConn_pure _)
      (clausesPreserve_cons _ _ _ (fun _ => preservesConn_pure _) clausesPreserve_nil))

theorem preservesConn_create_index (database : String) (fields : List Json)
    (indexName : Option String) : PreservesConn (create_index database fields indexName) :=
  preservesConn_excepts _ _
    (preservesConn_bind _ _ (preservesConn_getDb database)
      (fun _ => preservesConn_bind _ _ (preservesConn_srvOp _)
        (fun _ => preservesConn_pure _)))
    (clausesPreserve_cons _ _ _ (fun _ => preservesConn_pure _)
      (clausesPreserve_cons _ _ _ (fun _ => preservesConn_pure _) clausesPreserve_nil))

theorem preservesConn_list_indexes (database : String) :
    PreservesConn (list_indexes database) :=
  preservesConn_excepts _ _
    (preservesConn_bind _ _ (preservesConn_getDb database)
      (fun _ => preservesConn_bind _ _ (preservesConn_srvOp _)
        (fun _ => preservesConn_pure _)))
    (clausesPreserve_cons _ _ _ (fun _ => preservesConn_pure _)
      (clausesPreserve_cons _ _ _ (fun _ => preservesConn_pure _) clausesPreserve_nil))

theorem preservesConn_callToolBody (name : String) (args : Dict) :
    PreservesConn (callToolBody name args) := by
  unfold callToolBody
  by_cases h1 : name = "couchdb_list_databases"
  · rw [if_pos h1]
    exact preservesConn_list_databases
  rw [if_neg h1]
  by_cases h2 : name = "couchdb_create_database"
  · rw [if_pos h2]
    exact preservesConn_bind _ _ (preservesConn_argStr _ _)
      (fun n => preservesConn_create_database n)
  rw [if_neg h2]
  by_cases h3 : name = "couchdb_delete_database"
  · rw [if_pos h3]
    exact preservesConn_bind _ _ (preservesConn_argStr _ _)
      (fun n => preservesConn_delete_database n)
  rw [if_neg h3]
  by_cases h4 : name = "couchdb_create_document"
  · rw [if_pos h4]
    exact preservesConn_bind _ _ (preservesConn_argStr _ _)
      (fun database => preservesConn_bind _ _ (preservesConn_argObj _ _)
        (fun document => preservesConn_bind _ _ (preservesConn_argStrOpt _ _)
          (fun docId => preservesConn_create_document database document docId)))
  rw [if_neg h4]
  by_cases h5 : name = "couchdb_get_document"
  · rw [if_pos h5]
    exact preservesConn_bind _ _ (preservesConn_argStr _ _)
      (fun database => preservesConn_bind _ _ (preservesConn_argStr _ _)
        (fun docId => preservesConn_get_document database docId))
  rw [if_neg h5]
  by_cases h6 : name = "couchdb_update_document"
  · rw [if_pos h6]
    exact preservesConn_bind _ _ (preservesConn_argStr _ _)
      (fun database => preservesConn_bind _ _ (preservesConn_argStr _ _)
        (fun docId => preservesConn_bind _ _ (preservesConn_argObj _ _)
          (fun document => preservesConn_update_document database docId document)))
  rw [if_neg h6]
  by_cases h7 : name = "couchdb_delete_document"
  · rw [if_pos h7]
    exact preservesConn_bind _ _ (preservesConn_argStr _ _)
      (fun database => preservesConn_bind _ _ (preservesConn_argStr _ _)
        (fun docId => preservesConn_bind _ _ (preservesConn_argStr _ _)
          (fun rev => preservesConn_delete_document database docId rev)))
  rw [if_neg h7]
  by_cases h8 : name = "couchdb_search_documents"
  · rw [if_pos h8]
    exact preservesConn_bind _ _ (preservesConn_argStr _ _)
      (fun database => preservesConn_bind _ _ (preservesConn_argObj _ _)
        (fun query => preservesConn_bind _ _ (preservesConn_argIntD _ _ _)
          (fun limit => preservesConn_bind _ _ (preservesConn_argIntD _ _ _)
            (fun skip => preservesConn_search_documents database query limit skip))))
  rw [if_neg h8]
  by_cases h9 : name = "couchdb_list_documents"
  · rw [if_pos h9]
    exact preservesConn_bind _ _ (preservesConn_argStr _ _)
      (fun database => preservesConn_bind _ _ (preservesConn_argIntOpt _ _)
        (fun limit => preservesConn_bind _ _ (preservesConn_argBoolD _ _ _)
          (fun includeDocs => preservesConn_list_documents database limit includeDocs)))
  rw [if_neg h9]
  by_cases h10 : name = "couchdb_create_index"
  · rw [if_pos h10]
    exact preservesConn_bind _ _ (preservesConn_argStr _ _)
      (fun database => preservesConn_bind _ _ (preservesConn_argArr _ _)
        (fun fields => preservesConn_bind _ _ (preservesConn_argStrOpt _ _)
          (fun indexName => preservesConn_create_index database fields indexName)))
  rw [if_neg h10]
  by_cases h11 : name = "couchdb_list_indexes"
  · rw [if_pos h11]
    exact preservesConn_bind _ _ (preservesConn_argStr _ _)
      (fun database => preservesConn_list_indexes database)
  rw [if_neg h11]
  exact preservesConn_throw _

/-- C9: the connection handle is write-once: once `couch` holds a handle,
`_get_server` returns exactly that handle without touching the state, and
any `call_tool` invocation leaves the handle unchanged and performs no
further connect attempt (the connect counter is untouched). -/
theorem connection_handle_write_once (name : String) (args : Dict) (st : St)
    (h : Nat) (hc : st.couch = some h) :
    get_server st = Except.ok (h, st) ∧
    ∀ out st', call_tool name args st = Except.ok (out, st') →
      st'.couch = some h ∧ st'.connCtr = st.connCtr := by
  have hs : st.couch.isSome = true := by rw [hc]; rfl
  constructor
  · unfold get_server
    rw [hc]
  · intro out st' hh
    unfold call_tool at hh
    cases h1 : callToolBody name args st with
    | ok p =>
      rw [h1] at hh
      obtain ⟨o1, st1⟩ := p
      simp only [Except.ok.injEq, Prod.mk.injEq] at hh
      obtain ⟨-, hst⟩ := hh
      have e1 := (preservesConn_callToolBody name args st hs).1 o1 st1 h1
      rw [← hst]
      exact ⟨e1.1.trans hc, e1.2⟩
    | error p =>
      rw [h1] at hh
      obtain ⟨e1, st1⟩ := p
      simp only [Except.ok.injEq, Prod.mk.injEq] at hh
      obtain ⟨-, hst⟩ := hh
      have d1 := (preservesConn_callToolBody name args st hs).2 e1 st1 h1
      rw [← hst]
      exact ⟨d1.1.trans hc, d1.2⟩

/-- C9 witness: on the connected state `stW` (handle 7), `_get_server` hands
back handle 7 unchanged, and a concrete `call_tool` run keeps handle and
connect counter. -/
theorem connection_handle_write_once_witness :
    stW.couch = some 7 ∧
    (get_server stW = Except.ok (7, stW) ∧
    ∀ out st', call_tool "couchdb_list_databases" [] stW = Except.ok (out, st') →
      st'.couch = some 7 ∧ st'.connCtr = stW.connCtr) :=
  ⟨rfl, connection_handle_write_once "couchdb_list_databases" [] stW 7 rfl⟩
